import Mathlib

/-!
# Verification of the tic-tac-online rules engine

Shallow embedding of the game-state and turn-resolution engine of the
tic-tac-online repository: the rules evaluator (`checkWinner`, draw check),
the server room session (`makeMove`, `newGame`, `resetStats`, mark
assignment on `joinLobby`), the local board reset (`creategameBoard`), and
the computer strategies (`findCriticalMove` for the medium tier and
`minimax` for the hard tier).

Cells hold `null`, `"X"` or `"O"` in the JavaScript source; here a cell is
`Option Mark`.  A board is the JavaScript 9-element array, embedded as a
`List Cell`; `cellAt` is `board[i]`, with the out-of-range read returning
`none` (JavaScript `undefined` is falsy exactly like `null`, and every read
in the engine only tests truthiness or compares with `"X"`/`"O"`).
-/

namespace TicTacToe

inductive Mark where
  | X
  | O
deriving DecidableEq, Repr

/-- JS: `mark === "X" ? "O" : "X"` (used both by the server's turn flip and
by `minimax`'s `minPlayer`). -/
def otherMark : Mark → Mark
  | Mark.X => Mark.O
  | Mark.O => Mark.X

abbrev Cell := Option Mark

abbrev Board := List Cell

/-- `Array(9).fill(null)` -/
def emptyBoard : Board := List.replicate 9 none

/-- JS `board[i]`: out-of-range reads give `undefined`, which the engine
only ever treats like `null`. -/
def cellAt (board : Board) (i : Nat) : Cell := board.getD i none

/-- The 8 fixed win lines (`wins` in server.js, `winningCombinations` in the
client script): 3 rows, 3 columns, 2 diagonals. -/
def winningCombinations : List (Nat × Nat × Nat) :=
  [(0, 1, 2), (3, 4, 5), (6, 7, 8),
   (0, 3, 6), (1, 4, 7), (2, 5, 8),
   (0, 4, 8), (2, 4, 6)]

/-- One iteration of the `checkWinner` loop:
`if (board[a] && board[a] === board[b] && board[a] === board[c]) return board[a]`. -/
def lineWin (board : Board) : Nat × Nat × Nat → Option Mark
  | (a, b, c) =>
    match cellAt board a with
    | some m =>
      if (cellAt board b == some m) && (cellAt board c == some m) then some m else none
    | none => none

/-- `checkWinner(board)`: scan the 8 win lines in order, return the mark of
the first fully matched line, `null` if none matches. -/
def checkWinner (board : Board) : Option Mark :=
  winningCombinations.findSome? (lineWin board)

/-- `board.every((cell) => cell !== null)` (client `isBoardFull` /
`isGameOver`, and the fullness half of the server's `isDraw`). -/
def isBoardFull (board : Board) : Bool := board.all fun c => c.isSome

/-- The server's draw test in the `makeMove` handler:
`room.board.every((c) => c !== null) && !winner`. -/
def isDraw (board : Board) : Bool := isBoardFull board && (checkWinner board).isNone

/-- `getEmptyIndices(board)`:
`board.map((value, index) => (value === null ? index : null)).filter((index) => index !== null)`. -/
def getEmptyIndices (board : Board) : List Nat :=
  board.enum.filterMap fun p => if p.2 == none then some p.1 else none

/-- The cells of a win line in the scan order of the inner
`for (let i = 0; i < 3; i++)` loop of `findCriticalMove`. -/
def lineCells (l : Nat × Nat × Nat) : List Nat := [l.1, l.2.1, l.2.2]

/-- One iteration of the `findCriticalMove` loop over `winningCombinations`:
count the cells of the line held by `targetPlayer` and the empty cells; when
they are exactly (`count`, 1) return the (unique) empty cell of the line,
otherwise move on. -/
def criticalInLine (board : Board) (targetPlayer : Mark) (count : Nat)
    (l : Nat × Nat × Nat) : Option Nat :=
  let positions := [cellAt board l.1, cellAt board l.2.1, cellAt board l.2.2]
  let playerCount := (positions.filter fun p => p == some targetPlayer).length
  let emptyCount := (positions.filter fun p => p == none).length
  if playerCount = count ∧ emptyCount = 1 then
    (lineCells l).findSome? fun i => if cellAt board i == none then some i else none
  else none

/-- `findCriticalMove(targetPlayer, count)` of the client script, reading
the given board. -/
def findCriticalMove (board : Board) (targetPlayer : Mark) (count : Nat) : Option Nat :=
  winningCombinations.findSome? (criticalInLine board targetPlayer count)

/-- The medium branch of `handleComputerMove`: complete own line, else
block the opponent's, else center, else a random free corner, else a random
free side.  `r` abstracts the `Math.floor(Math.random() * length)` draw (an
arbitrary `r` indexes the list as `r % length`, covering every possible
draw). -/
def mediumMove (board : Board) (r : Nat) : Option Nat :=
  match findCriticalMove board Mark.O 2 with
  | some i => some i
  | none =>
    match findCriticalMove board Mark.X 2 with
    | some i => some i
    | none =>
      if cellAt board 4 == none then some 4
      else
        let freeCorners := [0, 2, 6, 8].filter fun i => cellAt board i == none
        if 0 < freeCorners.length then freeCorners.get? (r % freeCorners.length)
        else
          let freeSides := [1, 3, 5, 7].filter fun i => cellAt board i == none
          freeSides.get? (r % freeSides.length)

/-- The result object of `minimax`: `{ index, score }`.  The terminal
returns `{ score: ... }` leave `index` undefined, embedded as `none`. -/
structure MMResult where
  index : Option Nat
  score : Int
deriving DecidableEq, Repr

/-- One step of the best-move scan at the end of `minimax`: starting from
`bestScore = ±Infinity` and updating only on a strict improvement, which is
the same as starting from `none` and always taking the first move.  Ties
keep the earliest move. -/
def betterMove (isMaximizing : Bool) (best : Option MMResult) (m : MMResult) : Option MMResult :=
  match best with
  | none => some m
  | some b =>
    if isMaximizing then
      if m.score > b.score then some m else some b
    else
      if m.score < b.score then some m else some b

/-- The final loop of `minimax`: pick `moves[bestMove]`. -/
def pickBest (isMaximizing : Bool) (moves : List MMResult) : MMResult :=
  (moves.foldl (betterMove isMaximizing) none).getD ⟨none, 0⟩

/-- `minimax(board, depth, isMaximizing, maxPlayer)` from the client script.
The JavaScript recursion terminates because each call fills one empty cell;
the embedding carries an explicit fuel (any fuel above the number of empty
cells is enough; the engine calls it on 9-cell boards, so fuel 10 always
is). -/
def minimax (fuel : Nat) (board : Board) (depth : Nat) (isMaximizing : Bool)
    (maxPlayer : Mark) : MMResult :=
  match fuel with
  | 0 => ⟨none, 0⟩
  | fuel + 1 =>
    let minPlayer := otherMark maxPlayer
    match checkWinner board with
    | some w => if w == maxPlayer then ⟨none, 10 - (depth : Int)⟩ else ⟨none, (depth : Int) - 10⟩
    | none =>
      if isBoardFull board then ⟨none, 0⟩
      else
        let moves := (getEmptyIndices board).map fun i =>
          let result := minimax fuel (board.set i (some (if isMaximizing then maxPlayer else minPlayer)))
            (depth + 1) (!isMaximizing) maxPlayer
          (⟨some i, result.score⟩ : MMResult)
        pickBest isMaximizing moves

/-- The hard branch of `handleComputerMove`:
`const result = minimax(currentGameBoard, 0, true, "O"); moveIndex = result.index;`. -/
def hardMove (board : Board) : Option Nat := (minimax 10 board 0 true Mark.O).index

/-! ## Rules evaluator: `checkWinner` against the win lines (C1) -/

/-- A win line is fully occupied by the mark `m`. -/
def lineFilledWith (board : Board) (m : Mark) (l : Nat × Nat × Nat) : Prop :=
  cellAt board l.1 = some m ∧ cellAt board l.2.1 = some m ∧ cellAt board l.2.2 = some m

instance (board : Board) (m : Mark) (l : Nat × Nat × Nat) :
    Decidable (lineFilledWith board m l) := by
  unfold lineFilledWith; infer_instance

lemma lineWin_eq_some {board : Board} {l : Nat × Nat × Nat} {m : Mark} :
    lineWin board l = some m ↔ lineFilledWith board m l := by
  obtain ⟨a, b, c⟩ := l
  constructor
  · intro h'
    simp only [lineWin] at h'
    split at h'
    · rename_i m' ha
      split at h'
      · rename_i hbc
        injection h' with e
        subst e
        simp only [Bool.and_eq_true, beq_iff_eq] at hbc
        exact ⟨ha, hbc.1, hbc.2⟩
      · cases h'
    · cases h'
  · rintro ⟨h1, h2, h3⟩
    simp only [lineFilledWith] at h1 h2 h3
    simp only [lineWin, h1]
    rw [if_pos]
    simp only [Bool.and_eq_true, beq_iff_eq]
    exact ⟨h2, h3⟩

lemma checkWinner_some {board : Board} {m : Mark} (h : checkWinner board = some m) :
    ∃ l ∈ winningCombinations, lineFilledWith board m l := by
  obtain ⟨l, hl, hw⟩ := List.exists_of_findSome?_eq_some h
  exact ⟨l, hl, lineWin_eq_some.mp hw⟩

lemma checkWinner_none {board : Board} :
    checkWinner board = none ↔ ∀ l ∈ winningCombinations, ∀ m, ¬ lineFilledWith board m l := by
  unfold checkWinner
  rw [List.findSome?_eq_none_iff]
  constructor
  · intro h l hl m hfill
    have := h l hl
    rw [lineWin_eq_some.mpr hfill] at this
    cases this
  · intro h l hl
    cases hw : lineWin board l with
    | none => rfl
    | some m => exact absurd (lineWin_eq_some.mp hw) (h l hl m)

/-- A board on which two different marks both own a full line (unreachable in
play, but `checkWinner` is specified over all 3^9 boards): row 0 is all X,
row 1 is all O.  `checkWinner` scans lines in order and reports X. -/
def doubleWinBoard : Board :=
  [some Mark.X, some Mark.X, some Mark.X,
   some Mark.O, some Mark.O, some Mark.O,
   none, none, none]

/-- Board with the top row fully X, used as a concrete winning instance. -/
def xRowBoard : Board :=
  [some Mark.X, some Mark.X, some Mark.X, none, none, none, none, none, none]

/-! ## Server room session (server.js) -/

/-- The `stats` object of a room. -/
structure Stats where
  xWins : Nat
  oWins : Nat
  draws : Nat
  totalGames : Nat
deriving DecidableEq, Repr

/-- The zeroed counters used by `newRoomState` and by the `resetStats`
handler. -/
def initStats : Stats := ⟨0, 0, 0, 0⟩

/-- The game-relevant fields of a room from `newRoomState` in server.js.
(`players` and `createdAt` are connection bookkeeping and are not part of
the game state the claims are about.) -/
structure RoomState where
  board : Board
  currentPlayer : Mark
  isActive : Bool
  stats : Stats
deriving DecidableEq, Repr

/-- `newRoomState()` -/
def newRoomState : RoomState :=
  { board := emptyBoard, currentPlayer := Mark.X, isActive := true, stats := initStats }

/-- The `makeMove` socket handler of server.js, for a room that exists.
`mark` is `socket.data.mark`; `index` comes from the wire and is an
arbitrary integer (`Number.isInteger` plus the range check is embedded by
taking `index : Int` and checking `0 ≤ index ≤ 8`).  Every rejected request
returns the room unchanged. -/
def makeMove (room : RoomState) (mark : Mark) (index : Int) : RoomState :=
  if !room.isActive then room
  else if index < 0 || 8 < index then room
  else if (cellAt room.board index.toNat).isSome then room
  else if room.currentPlayer ≠ mark then room
  else
    let board := room.board.set index.toNat (some mark)
    match checkWinner board with
    | some w =>
      { room with
        board := board
        isActive := false
        stats :=
          (match w with
           | Mark.X => { room.stats with xWins := room.stats.xWins + 1,
                                         totalGames := room.stats.totalGames + 1 }
           | Mark.O => { room.stats with oWins := room.stats.oWins + 1,
                                         totalGames := room.stats.totalGames + 1 }) }
    | none =>
      if isBoardFull board then
        { room with
          board := board
          isActive := false
          stats := { room.stats with draws := room.stats.draws + 1,
                                     totalGames := room.stats.totalGames + 1 } }
      else
        { room with board := board, currentPlayer := otherMark mark }

/-- The `newGame` socket handler: fresh board and turn, stats untouched. -/
def newGame (room : RoomState) : RoomState :=
  { room with board := emptyBoard, currentPlayer := Mark.X, isActive := true }

/-- The `resetStats` socket handler: zero the counters, nothing else. -/
def resetStatsOp (room : RoomState) : RoomState :=
  { room with stats := initStats }

/-- One client request touching a room's game state.  `join` is `joinLobby`,
which never modifies the board/turn/stats of an existing room. -/
inductive RoomOp where
  | move (mark : Mark) (index : Int)
  | newGame
  | resetStats
  | join
deriving DecidableEq, Repr

def applyOp (room : RoomState) : RoomOp → RoomState
  | RoomOp.move mark index => makeMove room mark index
  | RoomOp.newGame => newGame room
  | RoomOp.resetStats => resetStatsOp room
  | RoomOp.join => room

/-- The room state after a fresh session processes a sequence of requests. -/
def runOps (ops : List RoomOp) : RoomState := ops.foldl applyOp newRoomState

/-! ## Mark assignment in the `joinLobby` handler (C7) -/

/-- Mark assignment for a joiner, from the `joinLobby` handler:
`socket.join` has already run, so the room size seen includes the joiner.
`let assignedMark = "X"; if (socketsInRoom.size >= 2) assignedMark = "O";
if (requestedMark && (requestedMark === "X" || requestedMark === "O"))
assignedMark = requestedMark;`  (a `requestedMark` that is neither "X" nor
"O" is embedded as `none`). -/
def assignMark (sizeAfterJoin : Nat) (requestedMark : Option Mark) : Mark :=
  let base := if sizeAfterJoin ≥ 2 then Mark.O else Mark.X
  match requestedMark with
  | some m => m
  | none => base

/-- Marks assigned to a sequence of joiners of one lobby (no disconnects):
the k-th joiner sees a room of size `sizeBefore + k + 1` after its own
`socket.join`. -/
def joinMarksFrom (sizeBefore : Nat) : List (Option Mark) → List Mark
  | [] => []
  | req :: rest => assignMark (sizeBefore + 1) req :: joinMarksFrom (sizeBefore + 1) rest

/-- Marks assigned to successive joiners of a fresh lobby. -/
def joinMarks (requests : List (Option Mark)) : List Mark := joinMarksFrom 0 requests

/-! ## Local game reset: `creategameBoard` (C8) -/

/-- The local script's mode configuration read by `creategameBoard`. -/
inductive GameMode where
  | pvp
  | pvc
deriving DecidableEq, Repr

/-- The `gameStatistics` object of the local script. -/
structure LocalStats where
  player : Nat
  computer : Nat
  playerX : Nat
  playerO : Nat
  draws : Nat
  totalGames : Nat
deriving DecidableEq, Repr

/-- The local game state touched by `creategameBoard` (DOM work aside). -/
structure LocalGameState where
  board : Board
  isActive : Bool
  currentPlayer : Mark
  stats : LocalStats
deriving DecidableEq, Repr

/-- The state effect of `creategameBoard()`:
`currentGameBoard = Array(9).fill(null); isGameCurrentlyActive = true;
currentPlayer = "X"; if (gameMode === "pvp") currentPlayer = onlineMode ?
"X" : playerXStartsFirst ? "X" : "O";` — `gameStatistics` is untouched. -/
def creategameBoard (gameMode : GameMode) (onlineMode : Bool)
    (playerXStartsFirst : Bool) (s : LocalGameState) : LocalGameState :=
  { s with
    board := List.replicate 9 none
    isActive := true
    currentPlayer :=
      if gameMode = GameMode.pvp then
        (if onlineMode then Mark.X else if playerXStartsFirst then Mark.X else Mark.O)
      else Mark.X }

/-- A concrete local state in the middle of a session, for instances. -/
def sampleLocalState : LocalGameState :=
  { board := xRowBoard
    isActive := false
    currentPlayer := Mark.O
    stats := ⟨1, 2, 3, 4, 5, 15⟩ }

/-- The fully played drawn board of the spec's end-to-end draw scenario. -/
def drawExampleBoard : Board :=
  [some Mark.X, some Mark.O, some Mark.X,
   some Mark.X, some Mark.O, some Mark.O,
   some Mark.O, some Mark.X, some Mark.X]

/-! ## Claim theorems -/

/-- **C1, counterexample**: on the (unreachable but in-scope) board with row
0 all X and row 1 all O, `checkWinner` returns X, so it does *not* return a
mark M iff some win line is fully M: line (3,4,5) is fully O and yet the
result is not `some O`.  The biconditional of the claim fails as stated. -/
theorem C1_counterexample :
    ¬ (checkWinner doubleWinBoard = some Mark.O ↔
        ∃ l ∈ winningCombinations, lineFilledWith doubleWinBoard Mark.O l) := by
  decide

/-- **C1, amended**: for every board, `checkWinner` returns a mark M *only
if* some of the 8 fixed win lines is fully M, and it returns `none` iff no
win line is fully one mark.  (When two marks both own full lines the first
fully matched line in the fixed scan order decides, so the "if" direction of
the original claim holds only for the reported mark.) -/
theorem C1_checkWinner_sound_complete (board : Board) :
    (∀ M : Mark, checkWinner board = some M →
      ∃ l ∈ winningCombinations, lineFilledWith board M l) ∧
    (checkWinner board = none ↔
      ∀ l ∈ winningCombinations, ∀ M : Mark, ¬ lineFilledWith board M l) :=
  ⟨fun _ h => checkWinner_some h, checkWinner_none⟩

/-- Witness for `C1_checkWinner_sound_complete` at the board with a full X
row. -/
theorem C1_checkWinner_sound_complete_witness :
    ∃ l ∈ winningCombinations, lineFilledWith xRowBoard Mark.X l :=
  (C1_checkWinner_sound_complete xRowBoard).1 Mark.X (by decide)

/-- **C2**: any illegal `makeMove` request — game inactive, index outside
`[0,8]`, target cell occupied, or the acting socket's mark is not the
current player — leaves the room (board, turn, active flag, statistics)
exactly unchanged; nothing is raised. -/
theorem C2_illegal_move_is_noop (room : RoomState) (mark : Mark) (index : Int)
    (h : room.isActive = false ∨ index < 0 ∨ 8 < index ∨
         (cellAt room.board index.toNat).isSome = true ∨ room.currentPlayer ≠ mark) :
    makeMove room mark index = room := by
  unfold makeMove
  split_ifs with h1 h2 h3 h4
  · rfl
  · rfl
  · rfl
  · rfl
  · exfalso
    simp only [Bool.or_eq_true, decide_eq_true_eq] at h2
    rcases h with h | h | h | h | h
    · simp [h] at h1
    · exact h2 (Or.inl h)
    · exact h2 (Or.inr h)
    · exact h3 h
    · exact h4 h

/-- Witness for `C2_illegal_move_is_noop`: in a fresh room it is X's turn,
so a move by O is dropped. -/
theorem C2_illegal_move_is_noop_witness :
    makeMove newRoomState Mark.O 0 = newRoomState :=
  C2_illegal_move_is_noop newRoomState Mark.O 0
    (Or.inr (Or.inr (Or.inr (Or.inr (by decide)))))

/-- **C6**: a legal move places the mark; if the resulting board has neither
a winner nor is full, the current player flips to the other mark and the
game stays active; if it produced a winner or a draw, the game becomes
inactive and the current player is left as it was (not flipped). -/
theorem C6_legal_move_flips_turn_unless_game_ends
    (room : RoomState) (mark : Mark) (index : Int)
    (hact : room.isActive = true) (h0 : 0 ≤ index) (h8 : index ≤ 8)
    (hemp : cellAt room.board index.toNat = none) (hturn : room.currentPlayer = mark) :
    (makeMove room mark index).board = room.board.set index.toNat (some mark) ∧
    ((checkWinner (room.board.set index.toNat (some mark)) = none ∧
        isBoardFull (room.board.set index.toNat (some mark)) = false) →
      (makeMove room mark index).currentPlayer = otherMark mark ∧
      (makeMove room mark index).isActive = true) ∧
    ((checkWinner (room.board.set index.toNat (some mark)) ≠ none ∨
        isBoardFull (room.board.set index.toNat (some mark)) = true) →
      (makeMove room mark index).isActive = false ∧
      (makeMove room mark index).currentPlayer = room.currentPlayer) := by
  have hmm : makeMove room mark index =
      (match checkWinner (room.board.set index.toNat (some mark)) with
       | some w =>
         { room with
           board := room.board.set index.toNat (some mark)
           isActive := false
           stats :=
             (match w with
              | Mark.X => { room.stats with xWins := room.stats.xWins + 1,
                                            totalGames := room.stats.totalGames + 1 }
              | Mark.O => { room.stats with oWins := room.stats.oWins + 1,
                                            totalGames := room.stats.totalGames + 1 }) }
       | none =>
         if isBoardFull (room.board.set index.toNat (some mark)) then
           { room with
             board := room.board.set index.toNat (some mark)
             isActive := false
             stats := { room.stats with draws := room.stats.draws + 1,
                                        totalGames := room.stats.totalGames + 1 } }
         else
           { room with board := room.board.set index.toNat (some mark),
                       currentPlayer := otherMark mark }) := by
    unfold makeMove
    rw [if_neg, if_neg, if_neg, if_neg]
    · exact fun hne => hne hturn
    · rw [hemp]; simp
    · simp only [Bool.or_eq_true, decide_eq_true_eq]
      rintro (h | h) <;> omega
    · rw [hact]; simp
  rw [hmm]
  refine ⟨?_, ?_, ?_⟩
  · cases hw : checkWinner (room.board.set index.toNat (some mark)) with
    | some w => rfl
    | none =>
      by_cases hf : isBoardFull (room.board.set index.toNat (some mark))
      · rw [if_pos hf]
      · rw [if_neg hf]
  · rintro ⟨hnone, hfull⟩
    rw [hnone, hfull]
    exact ⟨rfl, hact⟩
  · rintro (hne | hfull)
    · cases hw : checkWinner (room.board.set index.toNat (some mark)) with
      | some w => exact ⟨rfl, rfl⟩
      | none => exact absurd hw hne
    · cases hw : checkWinner (room.board.set index.toNat (some mark)) with
      | some w => exact ⟨rfl, rfl⟩
      | none => simp only [hfull]; exact ⟨rfl, rfl⟩

/-- Witness for `C6_legal_move_flips_turn_unless_game_ends`: the opening
move of a fresh room flips the turn to O. -/
theorem C6_legal_move_flips_turn_unless_game_ends_witness :
    (makeMove newRoomState Mark.X 0).currentPlayer = Mark.O ∧
    (makeMove newRoomState Mark.X 0).isActive = true :=
  (C6_legal_move_flips_turn_unless_game_ends newRoomState Mark.X 0 rfl (by decide)
    (by decide) (by decide) rfl).2.1 (by decide)

/-- **C9**: the server's draw test is true exactly when all 9 cells are
occupied and `checkWinner` reports no winner; and the spec's example board
`[X,O,X,X,O,O,O,X,X]` is a terminal draw. -/
theorem C9_isDraw_iff_full_and_no_winner :
    (∀ board : Board, board.length = 9 →
      (isDraw board = true ↔
        ((∀ i, i < 9 → (cellAt board i).isSome = true) ∧ checkWinner board = none))) ∧
    isDraw drawExampleBoard = true := by
  constructor
  · intro board hlen
    unfold isDraw isBoardFull
    simp only [Bool.and_eq_true, List.all_eq_true, Option.isNone_iff_eq_none]
    constructor
    · rintro ⟨hall, hnone⟩
      refine ⟨fun i hi => ?_, hnone⟩
      have hi' : i < board.length := by omega
      have hmem : board[i] ∈ board := List.getElem_mem hi'
      have := hall _ hmem
      rwa [cellAt, List.getD_eq_getElem?_getD, List.getElem?_eq_getElem hi',
        Option.getD_some]
    · rintro ⟨hall, hnone⟩
      refine ⟨fun c hc => ?_, hnone⟩
      obtain ⟨i, hi, hrfl⟩ := List.mem_iff_getElem.mp hc
      have := hall i (by omega)
      rwa [cellAt, List.getD_eq_getElem?_getD, List.getElem?_eq_getElem hi,
        Option.getD_some, hrfl] at this
  · decide

/-- Witness for `C9_isDraw_iff_full_and_no_winner` at the example board. -/
theorem C9_isDraw_iff_full_and_no_winner_witness :
    isDraw drawExampleBoard = true ↔
      ((∀ i, i < 9 → (cellAt drawExampleBoard i).isSome = true) ∧
        checkWinner drawExampleBoard = none) :=
  C9_isDraw_iff_full_and_no_winner.1 drawExampleBoard rfl

/-- The statistics bookkeeping invariant of a room. -/
def statsInvariant (s : Stats) : Prop := s.xWins + s.oWins + s.draws = s.totalGames

lemma applyOp_preserves_statsInvariant (room : RoomState) (op : RoomOp)
    (h : statsInvariant room.stats) : statsInvariant (applyOp room op).stats := by
  cases op with
  | newGame => exact h
  | resetStats => simp [applyOp, resetStatsOp, initStats, statsInvariant]
  | join => exact h
  | move mark index =>
    show statsInvariant (makeMove room mark index).stats
    unfold makeMove
    split_ifs with h1 h2 h3 h4
    · exact h
    · exact h
    · exact h
    · exact h
    · cases hw : checkWinner (room.board.set index.toNat (some mark)) with
      | some w =>
        simp only [hw]
        cases w <;> · simp only [statsInvariant] at h ⊢; omega
      | none =>
        simp only [hw]
        split_ifs with hf
        · simp only [statsInvariant] at h ⊢; omega
        · exact h

/-- **C10**: in every room state reachable from a fresh session by any
sequence of join/move/newGame/resetStats requests the statistics satisfy
`xWins + oWins + draws = totalGames`. -/
theorem C10_stats_invariant (ops : List RoomOp) :
    (runOps ops).stats.xWins + (runOps ops).stats.oWins + (runOps ops).stats.draws
      = (runOps ops).stats.totalGames := by
  suffices h : ∀ room : RoomState, statsInvariant room.stats →
      statsInvariant (ops.foldl applyOp room).stats by
    exact h newRoomState rfl
  induction ops with
  | nil => exact fun room h => h
  | cons op rest ih =>
    intro room h
    exact ih _ (applyOp_preserves_statsInvariant room op h)

lemma joinMarksFrom_length (n : Nat) (reqs : List (Option Mark)) :
    (joinMarksFrom n reqs).length = reqs.length := by
  induction reqs generalizing n with
  | nil => rfl
  | cons r rest ih => simp [joinMarksFrom, ih]

lemma joinMarksFrom_getD (n : Nat) (reqs : List (Option Mark)) (k : Nat)
    (hk : k < reqs.length) :
    (joinMarksFrom n reqs).getD k Mark.X =
      (match reqs.getD k none with
       | some m => m
       | none => if 1 ≤ n + k then Mark.O else Mark.X) := by
  induction reqs generalizing n k with
  | nil => cases hk
  | cons r rest ih =>
    cases k with
    | zero =>
      show (assignMark (n + 1) r :: joinMarksFrom (n + 1) rest).getD 0 Mark.X = _
      rw [List.getD_cons_zero, List.getD_cons_zero]
      simp only [assignMark]
      cases r with
      | some m => rfl
      | none =>
        by_cases h : 1 ≤ n
        · rw [if_pos (by omega), if_pos (by omega)]
        · rw [if_neg (by omega), if_neg (by omega)]
    | succ k' =>
      show (assignMark (n + 1) r :: joinMarksFrom (n + 1) rest).getD (k' + 1) Mark.X = _
      rw [List.getD_cons_succ, List.getD_cons_succ,
        ih (n + 1) k' (by simpa using hk)]
      cases rest.getD k' none with
      | some m => rfl
      | none => rw [if_pos (by omega), if_pos (by omega)]

lemma joinMarksFrom_append (n : Nat) (l1 l2 : List (Option Mark)) :
    joinMarksFrom n (l1 ++ l2) = joinMarksFrom n l1 ++ joinMarksFrom (n + l1.length) l2 := by
  induction l1 generalizing n with
  | nil => simp [joinMarksFrom]
  | cons r rest ih =>
    show _ :: joinMarksFrom (n + 1) (rest ++ l2) = _
    rw [ih (n + 1)]
    show _ :: (_ ++ joinMarksFrom (n + 1 + rest.length) l2)
      = _ :: (_ ++ joinMarksFrom (n + (rest.length + 1)) l2)
    rw [show n + 1 + rest.length = n + (rest.length + 1) by omega]

/-- **C7, counterexample**: three joins of a fresh lobby with no requested
marks are assigned X, O and then O again — the third joiner *does* receive
a playing mark (the server only emits a room-full warning), so the session
holds three assigned marks; moreover a `requestedMark` overrides the
first-X/second-O default. -/
theorem C7_counterexample :
    joinMarks [none, none, none] = [Mark.X, Mark.O, Mark.O] ∧
    ¬ (joinMarks [none, none, none]).length ≤ 2 ∧
    joinMarks [some Mark.O, none] = [Mark.O, Mark.O] := by
  decide

/-- **C7, amended**: `joinLobby` assigns, to the k-th joiner of a
lobby (no disconnects), its requested mark when one of X/O was requested,
otherwise X to the first joiner and O to every later one — including a
third joiner, which is warned but still assigned O.  Later joins never
change the marks already assigned (prefix stability), but a session can
hold more than 2 assigned marks. -/
theorem C7_mark_assignment (requests : List (Option Mark)) (k : Nat)
    (hk : k < requests.length) :
    (joinMarks requests).length = requests.length ∧
    (joinMarks requests).getD k Mark.X =
      (match requests.getD k none with
       | some m => m
       | none => if k = 0 then Mark.X else Mark.O) ∧
    (∀ more, (joinMarks (requests ++ more)).take requests.length = joinMarks requests) := by
  refine ⟨joinMarksFrom_length 0 requests, ?_, ?_⟩
  · rw [show joinMarks requests = joinMarksFrom 0 requests from rfl,
      joinMarksFrom_getD 0 requests k hk]
    cases requests.getD k none with
    | some m => rfl
    | none =>
      by_cases h : k = 0
      · subst h
        rw [if_neg (by omega), if_pos rfl]
      · rw [if_pos (by omega), if_neg h]
  · intro more
    show (joinMarksFrom 0 (requests ++ more)).take requests.length = _
    rw [joinMarksFrom_append]
    have hlen : requests.length = (joinMarksFrom 0 requests).length :=
      (joinMarksFrom_length 0 requests).symm
    rw [hlen, List.take_left]
    rfl

/-- Witness for `C7_mark_assignment`: the third no-request joiner of a
fresh lobby is assigned O. -/
theorem C7_mark_assignment_witness :
    (joinMarks [none, none, none]).getD 2 Mark.X = Mark.O :=
  (C7_mark_assignment [none, none, none] 2 (by decide)).2.1

/-- **C8, counterexample**: the local board re-creation in offline PvP with
the `playerXStartsFirst` toggle off resets the turn to O, not X. -/
theorem C8_counterexample :
    (creategameBoard GameMode.pvp false false sampleLocalState).currentPlayer ≠ Mark.X ∧
    (creategameBoard GameMode.pvp false false sampleLocalState).currentPlayer = Mark.O := by
  decide

/-! ### The best-move scan of `minimax` (shared by C4 and C3) -/

lemma foldl_betterMove_max (s : Nat → Int) (l : List Nat) (j0 : Nat) :
    ∃ j, (l.map fun i => (⟨some i, s i⟩ : MMResult)).foldl (betterMove true)
        (some ⟨some j0, s j0⟩) = some ⟨some j, s j⟩ ∧
      s j0 ≤ s j ∧ (∀ k ∈ l, s k ≤ s j) ∧
      (j = j0 ∨ (s j0 < s j ∧ ∃ l1 l2, l = l1 ++ j :: l2 ∧ ∀ k ∈ l1, s k < s j)) := by
  induction l generalizing j0 with
  | nil => exact ⟨j0, rfl, le_refl _, by simp, Or.inl rfl⟩
  | cons x xs ih =>
    rw [List.map_cons, List.foldl_cons]
    by_cases hx : s j0 < s x
    · have hb : betterMove true (some ⟨some j0, s j0⟩) ⟨some x, s x⟩ = some ⟨some x, s x⟩ := by
        simp only [betterMove, if_pos, if_true]
        rw [if_pos hx]
      rw [hb]
      obtain ⟨j, hfold, hle, hall, hcase⟩ := ih x
      refine ⟨j, hfold, le_of_lt (lt_of_lt_of_le hx hle), ?_, ?_⟩
      · intro k hk
        rcases List.mem_cons.mp hk with rfl | hk
        · exact hle
        · exact hall k hk
      · rcases hcase with rfl | ⟨hlt, l1, l2, heq, hl1⟩
        · exact Or.inr ⟨hx, [], xs, rfl, by simp⟩
        · refine Or.inr ⟨lt_trans hx hlt, x :: l1, l2, by rw [heq]; rfl, ?_⟩
          intro k hk
          rcases List.mem_cons.mp hk with rfl | hk
          · exact hlt
          · exact hl1 k hk
    · have hb : betterMove true (some ⟨some j0, s j0⟩) ⟨some x, s x⟩ = some ⟨some j0, s j0⟩ := by
        simp only [betterMove, if_true]
        rw [if_neg hx]
      rw [hb]
      obtain ⟨j, hfold, hle, hall, hcase⟩ := ih j0
      refine ⟨j, hfold, hle, ?_, ?_⟩
      · intro k hk
        rcases List.mem_cons.mp hk with rfl | hk
        · exact le_trans (not_lt.mp hx) hle
        · exact hall k hk
      · rcases hcase with rfl | ⟨hlt, l1, l2, heq, hl1⟩
        · exact Or.inl rfl
        · refine Or.inr ⟨hlt, x :: l1, l2, by rw [heq]; rfl, ?_⟩
          intro k hk
          rcases List.mem_cons.mp hk with rfl | hk
          · exact lt_of_le_of_lt (not_lt.mp hx) hlt
          · exact hl1 k hk

lemma foldl_betterMove_min (s : Nat → Int) (l : List Nat) (j0 : Nat) :
    ∃ j, (l.map fun i => (⟨some i, s i⟩ : MMResult)).foldl (betterMove false)
        (some ⟨some j0, s j0⟩) = some ⟨some j, s j⟩ ∧
      s j ≤ s j0 ∧ (∀ k ∈ l, s j ≤ s k) ∧ (j = j0 ∨ j ∈ l) := by
  induction l generalizing j0 with
  | nil => exact ⟨j0, rfl, le_refl _, by simp, Or.inl rfl⟩
  | cons x xs ih =>
    rw [List.map_cons, List.foldl_cons]
    by_cases hx : s x < s j0
    · have hb : betterMove false (some ⟨some j0, s j0⟩) ⟨some x, s x⟩ = some ⟨some x, s x⟩ := by
        simp only [betterMove, Bool.false_eq_true, if_false]
        rw [if_pos hx]
      rw [hb]
      obtain ⟨j, hfold, hle, hall, hcase⟩ := ih x
      refine ⟨j, hfold, le_of_lt (lt_of_le_of_lt hle hx), ?_, ?_⟩
      · intro k hk
        rcases List.mem_cons.mp hk with rfl | hk
        · exact hle
        · exact hall k hk
      · rcases hcase with rfl | hj
        · exact Or.inr (List.mem_cons_self _ _)
        · exact Or.inr (List.mem_cons_of_mem _ hj)
    · have hb : betterMove false (some ⟨some j0, s j0⟩) ⟨some x, s x⟩ = some ⟨some j0, s j0⟩ := by
        simp only [betterMove, Bool.false_eq_true, if_false]
        rw [if_neg hx]
      rw [hb]
      obtain ⟨j, hfold, hle, hall, hcase⟩ := ih j0
      refine ⟨j, hfold, hle, ?_, ?_⟩
      · intro k hk
        rcases List.mem_cons.mp hk with rfl | hk
        · exact le_trans hle (not_lt.mp hx)
        · exact hall k hk
      · rcases hcase with rfl | hj
        · exact Or.inl rfl
        · exact Or.inr (List.mem_cons_of_mem _ hj)

/-- `pickBest true` over the root's move objects returns the first move
whose score is maximal. -/
lemma pickBest_max_spec (s : Nat → Int) (l : List Nat) (hne : l ≠ []) :
    ∃ j ∈ l, pickBest true (l.map fun i => (⟨some i, s i⟩ : MMResult)) = ⟨some j, s j⟩ ∧
      (∀ k ∈ l, s k ≤ s j) ∧
      ∃ l1 l2, l = l1 ++ j :: l2 ∧ ∀ k ∈ l1, s k < s j := by
  cases l with
  | nil => exact absurd rfl hne
  | cons x xs =>
    unfold pickBest
    rw [List.map_cons, List.foldl_cons]
    have hb : betterMove true none ⟨some x, s x⟩ = some ⟨some x, s x⟩ := rfl
    rw [hb]
    obtain ⟨j, hfold, hle, hall, hcase⟩ := foldl_betterMove_max s xs x
    rw [hfold]
    have hmem : j ∈ x :: xs := by
      rcases hcase with rfl | ⟨_, l1, l2, heq, _⟩
      · exact List.mem_cons_self _ _
      · exact List.mem_cons_of_mem _ (heq ▸ List.mem_append_right l1 (List.mem_cons_self _ _))
    refine ⟨j, hmem, rfl, ?_, ?_⟩
    · intro k hk
      rcases List.mem_cons.mp hk with rfl | hk
      · exact hle
      · exact hall k hk
    · rcases hcase with rfl | ⟨hlt, l1, l2, heq, hl1⟩
      · exact ⟨[], xs, rfl, by simp⟩
      · refine ⟨x :: l1, l2, by rw [heq]; rfl, ?_⟩
        intro k hk
        rcases List.mem_cons.mp hk with rfl | hk
        · exact hlt
        · exact hl1 k hk

/-- `pickBest false` over the move objects returns a move whose score is
minimal. -/
lemma pickBest_min_spec (s : Nat → Int) (l : List Nat) (hne : l ≠ []) :
    ∃ j ∈ l, pickBest false (l.map fun i => (⟨some i, s i⟩ : MMResult)) = ⟨some j, s j⟩ ∧
      ∀ k ∈ l, s j ≤ s k := by
  cases l with
  | nil => exact absurd rfl hne
  | cons x xs =>
    unfold pickBest
    rw [List.map_cons, List.foldl_cons]
    have hb : betterMove false none ⟨some x, s x⟩ = some ⟨some x, s x⟩ := rfl
    rw [hb]
    obtain ⟨j, hfold, hle, hall, hcase⟩ := foldl_betterMove_min s xs x
    rw [hfold]
    have hmem : j ∈ x :: xs := by
      rcases hcase with rfl | hj
      · exact List.mem_cons_self _ _
      · exact List.mem_cons_of_mem _ hj
    refine ⟨j, hmem, rfl, ?_⟩
    intro k hk
    rcases List.mem_cons.mp hk with rfl | hk
    · exact hle
    · exact hall k hk

/-! ### `getEmptyIndices` facts -/

lemma mem_getEmptyIndices {b : Board} {i : Nat} :
    i ∈ getEmptyIndices b ↔ b[i]? = some none := by
  unfold getEmptyIndices
  rw [List.mem_filterMap]
  constructor
  · rintro ⟨⟨k, c⟩, hmem, hf⟩
    revert hf
    split
    · rename_i hc
      intro hf
      injection hf with e
      subst e
      have hc' : c = none := by simpa using hc
      subst hc'
      exact List.mk_mem_enum_iff_getElem?.mp hmem
    · intro hf; cases hf
  · intro h
    exact ⟨(i, none), List.mk_mem_enum_iff_getElem?.mpr h, by simp⟩

lemma mem_getEmptyIndices_iff {b : Board} {i : Nat} :
    i ∈ getEmptyIndices b ↔ i < b.length ∧ cellAt b i = none := by
  rw [mem_getEmptyIndices, List.getElem?_eq_some_iff]
  constructor
  · rintro ⟨h, he⟩
    refine ⟨h, ?_⟩
    rw [cellAt, List.getD_eq_getElem?_getD, List.getElem?_eq_getElem h, he]
    rfl
  · rintro ⟨h, he⟩
    refine ⟨h, ?_⟩
    rw [cellAt, List.getD_eq_getElem?_getD, List.getElem?_eq_getElem h] at he
    exact he

lemma pairwise_fst_lt_enumFrom {α : Type _} :
    ∀ (l : List α) (n : Nat),
      List.Pairwise (fun p q : Nat × α => p.1 < q.1) (List.enumFrom n l)
  | [], _ => List.Pairwise.nil
  | x :: xs, n => by
    rw [List.enumFrom_cons]
    refine List.Pairwise.cons ?_ (pairwise_fst_lt_enumFrom xs (n + 1))
    intro q hq
    exact lt_of_lt_of_le (Nat.lt_succ_self n) (List.le_fst_of_mem_enumFrom hq)

lemma pairwise_lt_getEmptyIndices (b : Board) :
    List.Pairwise (· < ·) (getEmptyIndices b) := by
  unfold getEmptyIndices
  refine List.Pairwise.filterMap _ ?_ (pairwise_fst_lt_enumFrom b 0)
  intro p q hpq i hi j hj
  revert hi hj
  split
  · intro hi
    split
    · intro hj
      simp only [Option.mem_def, Option.some.injEq] at hi hj
      subst hi; subst hj
      exact hpq
    · intro hj; cases hj
  · intro hi; cases hi

lemma getEmptyIndices_ne_nil {b : Board} (h : isBoardFull b = false) :
    getEmptyIndices b ≠ [] := by
  intro hnil
  have hall : ∀ p ∈ b.enum, (if p.2 == (none : Cell) then some p.1 else none) = none :=
    List.filterMap_eq_nil_iff.mp hnil
  have : isBoardFull b = true := by
    unfold isBoardFull
    rw [List.all_eq_true]
    intro c hc
    obtain ⟨i, hi, hrfl⟩ := List.mem_iff_getElem.mp hc
    have hmem : ((i, c) : Nat × Cell) ∈ b.enum :=
      List.mk_mem_enum_iff_getElem?.mpr (by rw [List.getElem?_eq_getElem hi, hrfl])
    have := hall _ hmem
    revert this
    split
    · intro hcontra; cases hcontra
    · rename_i hne
      intro _
      cases c with
      | some m => rfl
      | none => simp at hne
  rw [this] at h
  cases h

/-- Subtree score of the root's child at empty cell `i`, as recursively
computed by the root call `minimax(board, 0, true, maxPlayer)`: the score of
the position after placing `maxPlayer` on `i`, from the opponent's
perspective, at depth 1. -/
def rootChildScore (fuel : Nat) (board : Board) (maxPlayer : Mark) (i : Nat) : Int :=
  (minimax fuel (board.set i (some maxPlayer)) 1 false maxPlayer).score

/-- One unfolding of `minimax` with positive fuel. -/
lemma minimax_succ_eq (fuel : Nat) (board : Board) (depth : Nat) (isMax : Bool)
    (maxPlayer : Mark) :
    minimax (fuel + 1) board depth isMax maxPlayer =
      (match checkWinner board with
       | some w =>
         if w == maxPlayer then (⟨none, 10 - (depth : Int)⟩ : MMResult)
         else ⟨none, (depth : Int) - 10⟩
       | none =>
         if isBoardFull board then ⟨none, 0⟩
         else
           pickBest isMax ((getEmptyIndices board).map fun i =>
             (⟨some i,
               (minimax fuel
                 (board.set i (some (if isMax then maxPlayer else otherMark maxPlayer)))
                 (depth + 1) (!isMax) maxPlayer).score⟩ : MMResult))) := rfl

/-- **C4**: `minimax` scores a terminal position where the maximizing mark
wins as `10 - depth`, where it loses as `depth - 10`, and a full-board draw
as `0`; and on a non-terminal board with an empty cell the root call
returns the empty cell whose recursively computed subtree score is maximal,
ties broken by the first such cell in increasing index order. -/
theorem C4_minimax_scores_and_root_argmax (fuel depth : Nat) (board : Board)
    (isMaximizing : Bool) (maxPlayer : Mark) :
    (checkWinner board = some maxPlayer →
      minimax (fuel + 1) board depth isMaximizing maxPlayer = ⟨none, 10 - (depth : Int)⟩) ∧
    (checkWinner board = some (otherMark maxPlayer) →
      minimax (fuel + 1) board depth isMaximizing maxPlayer = ⟨none, (depth : Int) - 10⟩) ∧
    (checkWinner board = none → isBoardFull board = true →
      minimax (fuel + 1) board depth isMaximizing maxPlayer = ⟨none, 0⟩) ∧
    (checkWinner board = none → isBoardFull board = false →
      ∃ j ∈ getEmptyIndices board,
        minimax (fuel + 1) board 0 true maxPlayer =
          ⟨some j, rootChildScore fuel board maxPlayer j⟩ ∧
        (∀ k ∈ getEmptyIndices board,
          rootChildScore fuel board maxPlayer k ≤ rootChildScore fuel board maxPlayer j) ∧
        (∀ k ∈ getEmptyIndices board, k < j →
          rootChildScore fuel board maxPlayer k < rootChildScore fuel board maxPlayer j)) := by
  refine ⟨?_, ?_, ?_, ?_⟩
  · intro h
    simp only [minimax_succ_eq, h]
    rw [if_pos (by simp)]
  · intro h
    simp only [minimax_succ_eq, h]
    rw [if_neg (by cases maxPlayer <;> simp [otherMark])]
  · intro hcw hfull
    simp only [minimax_succ_eq, hcw, hfull, if_true]
  · intro hcw hfull
    have hroot : minimax (fuel + 1) board 0 true maxPlayer =
        pickBest true ((getEmptyIndices board).map fun i =>
          (⟨some i, rootChildScore fuel board maxPlayer i⟩ : MMResult)) := by
      simp only [minimax_succ_eq, hcw, hfull, Bool.false_eq_true, if_false,
        if_true, Bool.not_true]
      rfl
    obtain ⟨j, hj, hpick, hall, l1, l2, heq, hl1⟩ :=
      pickBest_max_spec (rootChildScore fuel board maxPlayer)
        (getEmptyIndices board) (getEmptyIndices_ne_nil hfull)
    refine ⟨j, hj, by rw [hroot, hpick], hall, ?_⟩
    intro k hk hkj
    have hsort := pairwise_lt_getEmptyIndices board
    rw [heq] at hsort hk
    rcases List.mem_append.mp hk with hk1 | hk2
    · exact hl1 k hk1
    · rcases List.mem_cons.mp hk2 with rfl | hk2
      · exact absurd hkj (lt_irrefl _)
      · rw [List.pairwise_append] at hsort
        have hjk : j < k := (List.pairwise_cons.mp hsort.2.1).1 k hk2
        omega

/-- Witness for `C4_minimax_scores_and_root_argmax`: the empty board is
non-terminal, so the root call on it returns the first empty cell of
maximal subtree score. -/
theorem C4_minimax_scores_and_root_argmax_witness :
    checkWinner emptyBoard = none ∧
    ∃ j ∈ getEmptyIndices emptyBoard,
      minimax (9 + 1) emptyBoard 0 true Mark.O =
        ⟨some j, rootChildScore 9 emptyBoard Mark.O j⟩ ∧
      (∀ k ∈ getEmptyIndices emptyBoard,
        rootChildScore 9 emptyBoard Mark.O k ≤ rootChildScore 9 emptyBoard Mark.O j) ∧
      (∀ k ∈ getEmptyIndices emptyBoard, k < j →
        rootChildScore 9 emptyBoard Mark.O k < rootChildScore 9 emptyBoard Mark.O j) :=
  ⟨by decide,
    (C4_minimax_scores_and_root_argmax 9 0 emptyBoard true Mark.O).2.2.2
      (by decide) (by decide)⟩

/-! ### Forced wins, and safety of the hard strategy (C3)

`minimax` cannot be evaluated position-by-position inside a kernel-checked
proof at an acceptable cost, so C3 is settled structurally: `xCanForceWin`
is the game-theoretic forced-win search for X over the same move universe
as `minimax`; a sign-correctness lemma proved by induction relates the sign
of a `minimax` score to it; a small certified checker (`oEscapes`)
establishes that X has no forced win from the empty board by following one
fixed safe reply table for O; and an invariant argument along the simulated
game concludes that the minimax player never loses. -/

/-- X has a strategy forcing a win within `fuel` plies (with `fuel` at
least the number of empty cells this is exactly "X can force a win"):
a position already won by X counts, a position won by O or drawn does not,
and otherwise X needs some continuation (on its turn) or every continuation
(on O's turn) to be winning. -/
def xCanForceWin : Nat → Board → Bool → Bool
  | 0, board, _ => checkWinner board == some Mark.X
  | fuel + 1, board, xTurn =>
    match checkWinner board with
    | some Mark.X => true
    | some Mark.O => false
    | none =>
      if isBoardFull board then false
      else
        if xTurn then
          (getEmptyIndices board).any fun i => xCanForceWin fuel (board.set i (some Mark.X)) false
        else
          (getEmptyIndices board).all fun i => xCanForceWin fuel (board.set i (some Mark.O)) true

lemma xCanForceWin_succ_eq (fuel : Nat) (board : Board) (xTurn : Bool) :
    xCanForceWin (fuel + 1) board xTurn =
      (match checkWinner board with
       | some Mark.X => true
       | some Mark.O => false
       | none =>
         if isBoardFull board then false
         else
           if xTurn then
             (getEmptyIndices board).any fun i =>
               xCanForceWin fuel (board.set i (some Mark.X)) false
           else
             (getEmptyIndices board).all fun i =>
               xCanForceWin fuel (board.set i (some Mark.O)) true) := rfl

lemma xCanForceWin_false_no_winner {fuel : Nat} {board : Board} {xTurn : Bool}
    (h : xCanForceWin fuel board xTurn = false) : checkWinner board ≠ some Mark.X := by
  intro hcw
  cases fuel with
  | zero =>
    have : xCanForceWin 0 board xTurn = true := by
      show (checkWinner board == some Mark.X) = true
      rw [hcw]
      rfl
    rw [this] at h
    cases h
  | succ fuel =>
    rw [xCanForceWin_succ_eq, hcw] at h
    cases h

/-- The number of empty cells, as the length of `getEmptyIndices`. -/
lemma getEmptyIndices_length_eq_countP (b : Board) :
    (getEmptyIndices b).length = b.countP (fun c => c == (none : Cell)) := by
  suffices h : ∀ (l : Board) (n : Nat),
      ((List.enumFrom n l).filterMap fun p =>
        if p.2 == (none : Cell) then some p.1 else none).length
        = l.countP (fun c => c == (none : Cell)) by
    exact h b 0
  intro l
  induction l with
  | nil => intro n; rfl
  | cons c cs ih =>
    intro n
    rw [List.enumFrom_cons, List.filterMap_cons, List.countP_cons]
    cases hc : (c == (none : Cell)) with
    | true => simp only [hc, if_pos, List.length_cons, ih (n + 1)]
    | false => simp only [hc, Bool.false_eq_true, if_false, ih (n + 1)]; omega

lemma countP_set_some (b : Board) (m : Mark) :
    ∀ (i : Nat), b[i]? = some none →
      (b.set i (some m)).countP (fun c => c == (none : Cell)) + 1
        = b.countP (fun c => c == (none : Cell)) := by
  induction b with
  | nil => intro i h; cases h
  | cons c cs ih =>
    intro i h
    cases i with
    | zero =>
      have hc : c = none := by
        rw [List.getElem?_cons_zero] at h
        injection h
      subst hc
      rw [List.set_cons_zero, List.countP_cons, List.countP_cons]
      simp
    | succ i' =>
      rw [List.getElem?_cons_succ] at h
      rw [List.set_cons_succ, List.countP_cons, List.countP_cons]
      have := ih i' h
      omega

lemma getEmptyIndices_set_length {b : Board} {i : Nat} {m : Mark}
    (h : i ∈ getEmptyIndices b) :
    (getEmptyIndices (b.set i (some m))).length + 1 = (getEmptyIndices b).length := by
  rw [getEmptyIndices_length_eq_countP, getEmptyIndices_length_eq_countP]
  exact countP_set_some b m i (mem_getEmptyIndices.mp h)

lemma getEmptyIndices_length_le (b : Board) :
    (getEmptyIndices b).length ≤ b.length := by
  rw [getEmptyIndices_length_eq_countP]
  exact List.countP_le_length _

lemma getEmptyIndices_pos {b : Board} (h : isBoardFull b = false) :
    0 < (getEmptyIndices b).length :=
  List.length_pos.mpr (getEmptyIndices_ne_nil h)

/-- Score of the child position after O plays cell `i`, as seen one level
below a maximizing node at `depth`. -/
def oChildScore (fuel : Nat) (board : Board) (depth : Nat) (i : Nat) : Int :=
  (minimax fuel (board.set i (some Mark.O)) (depth + 1) false Mark.O).score

/-- Score of the child position after X plays cell `i`, as seen one level
below a minimizing node at `depth`. -/
def xChildScore (fuel : Nat) (board : Board) (depth : Nat) (i : Nat) : Int :=
  (minimax fuel (board.set i (some Mark.X)) (depth + 1) true Mark.O).score

lemma minimax_winX_eq (fuel : Nat) (board : Board) (depth : Nat) (isMax : Bool)
    (h : checkWinner board = some Mark.X) :
    minimax (fuel + 1) board depth isMax Mark.O = ⟨none, (depth : Int) - 10⟩ := by
  rw [minimax_succ_eq, h]; rfl

lemma minimax_winO_eq (fuel : Nat) (board : Board) (depth : Nat) (isMax : Bool)
    (h : checkWinner board = some Mark.O) :
    minimax (fuel + 1) board depth isMax Mark.O = ⟨none, 10 - (depth : Int)⟩ := by
  rw [minimax_succ_eq, h]; rfl

lemma minimax_draw_eq (fuel : Nat) (board : Board) (depth : Nat) (isMax : Bool)
    (hcw : checkWinner board = none) (hfull : isBoardFull board = true) :
    minimax (fuel + 1) board depth isMax Mark.O = ⟨none, 0⟩ := by
  rw [minimax_succ_eq, hcw, hfull]; rfl

lemma minimax_max_eq (fuel : Nat) (board : Board) (depth : Nat)
    (hcw : checkWinner board = none) (hfull : isBoardFull board = false) :
    minimax (fuel + 1) board depth true Mark.O =
      pickBest true ((getEmptyIndices board).map fun i =>
        (⟨some i, oChildScore fuel board depth i⟩ : MMResult)) := by
  rw [minimax_succ_eq, hcw, hfull]; rfl

lemma minimax_min_eq (fuel : Nat) (board : Board) (depth : Nat)
    (hcw : checkWinner board = none) (hfull : isBoardFull board = false) :
    minimax (fuel + 1) board depth false Mark.O =
      pickBest false ((getEmptyIndices board).map fun i =>
        (⟨some i, xChildScore fuel board depth i⟩ : MMResult)) := by
  rw [minimax_succ_eq, hcw, hfull]; rfl

lemma xcfw_winX {board : Board} (fuel : Nat) (t : Bool)
    (h : checkWinner board = some Mark.X) : xCanForceWin fuel board t = true := by
  cases fuel with
  | zero => show (checkWinner board == some Mark.X) = true; rw [h]; rfl
  | succ fuel => rw [xCanForceWin_succ_eq, h]

lemma xcfw_winO {board : Board} (fuel : Nat) (t : Bool)
    (h : checkWinner board = some Mark.O) : xCanForceWin fuel board t = false := by
  cases fuel with
  | zero => show (checkWinner board == some Mark.X) = false; rw [h]; rfl
  | succ fuel => rw [xCanForceWin_succ_eq, h]

lemma xcfw_full {board : Board} (fuel : Nat) (t : Bool)
    (hcw : checkWinner board = none) (hfull : isBoardFull board = true) :
    xCanForceWin fuel board t = false := by
  cases fuel with
  | zero => show (checkWinner board == some Mark.X) = false; rw [hcw]; rfl
  | succ fuel => rw [xCanForceWin_succ_eq, hcw, hfull]; rfl

lemma xcfw_xTurn_eq {board : Board} (fuel : Nat)
    (hcw : checkWinner board = none) (hfull : isBoardFull board = false) :
    xCanForceWin (fuel + 1) board true =
      (getEmptyIndices board).any fun i =>
        xCanForceWin fuel (board.set i (some Mark.X)) false := by
  rw [xCanForceWin_succ_eq, hcw, hfull]; rfl

lemma xcfw_oTurn_eq {board : Board} (fuel : Nat)
    (hcw : checkWinner board = none) (hfull : isBoardFull board = false) :
    xCanForceWin (fuel + 1) board false =
      (getEmptyIndices board).all fun i =>
        xCanForceWin fuel (board.set i (some Mark.O)) true := by
  rw [xCanForceWin_succ_eq, hcw, hfull]; rfl

/-- Sign correctness of `minimax` with maximizing mark O: a negative score
means exactly that X can force a win from the position (when the fuel
exceeds the number of empty cells and depths stay within one game). -/
lemma minimax_sign_correct :
    ∀ (fuel : Nat) (board : Board) (depth : Nat) (isMax : Bool),
      (getEmptyIndices board).length < fuel →
      depth + (getEmptyIndices board).length ≤ 9 →
      ((minimax fuel board depth isMax Mark.O).score < 0 ↔
        xCanForceWin fuel board (!isMax) = true) := by
  intro fuel
  induction fuel with
  | zero => intro board depth isMax hf _; exact absurd hf (Nat.not_lt_zero _)
  | succ fuel ih =>
    intro board depth isMax hf hd
    have hd9 : depth ≤ 9 := by omega
    cases hcw : checkWinner board with
    | some w =>
      cases w with
      | X =>
        rw [minimax_winX_eq fuel board depth isMax hcw, xcfw_winX (fuel + 1) _ hcw]
        constructor
        · intro _; rfl
        · intro _
          show (depth : Int) - 10 < 0
          omega
      | O =>
        rw [minimax_winO_eq fuel board depth isMax hcw, xcfw_winO (fuel + 1) _ hcw]
        constructor
        · intro h10
          exfalso
          have : (10 : Int) - (depth : Int) < 0 := h10
          omega
        · intro h; cases h
    | none =>
      cases hfull : isBoardFull board with
      | true =>
        rw [minimax_draw_eq fuel board depth isMax hcw hfull, xcfw_full (fuel + 1) _ hcw hfull]
        constructor
        · intro h0
          exfalso
          have : (0 : Int) < 0 := h0
          omega
        · intro h; cases h
      | false =>
        have hne := getEmptyIndices_ne_nil hfull
        have hchild : ∀ i ∈ getEmptyIndices board, ∀ m : Mark,
            (getEmptyIndices (board.set i (some m))).length < fuel ∧
            (depth + 1) + (getEmptyIndices (board.set i (some m))).length ≤ 9 := by
          intro i hi m
          have hlen := getEmptyIndices_set_length (m := m) hi
          omega
        cases isMax with
        | true =>
          simp only [Bool.not_true]
          rw [minimax_max_eq fuel board depth hcw hfull, xcfw_oTurn_eq fuel hcw hfull]
          obtain ⟨j, hj, hpick, hall, -⟩ :=
            pickBest_max_spec (oChildScore fuel board depth) (getEmptyIndices board) hne
          rw [hpick]
          constructor
          · intro hneg
            rw [List.all_eq_true]
            intro i hi
            exact (ih (board.set i (some Mark.O)) (depth + 1) false
              (hchild i hi Mark.O).1 (hchild i hi Mark.O).2).mp
              (lt_of_le_of_lt (hall i hi) hneg)
          · intro halltrue
            exact (ih (board.set j (some Mark.O)) (depth + 1) false
              (hchild j hj Mark.O).1 (hchild j hj Mark.O).2).mpr
              (List.all_eq_true.mp halltrue j hj)
        | false =>
          simp only [Bool.not_false]
          rw [minimax_min_eq fuel board depth hcw hfull, xcfw_xTurn_eq fuel hcw hfull]
          obtain ⟨j, hj, hpick, hall⟩ :=
            pickBest_min_spec (xChildScore fuel board depth) (getEmptyIndices board) hne
          rw [hpick]
          constructor
          · intro hneg
            rw [List.any_eq_true]
            exact ⟨j, hj, (ih (board.set j (some Mark.X)) (depth + 1) true
              (hchild j hj Mark.X).1 (hchild j hj Mark.X).2).mp hneg⟩
          · intro hany
            obtain ⟨i, hi, hwin⟩ := List.any_eq_true.mp hany
            exact lt_of_le_of_lt (hall i hi)
              ((ih (board.set i (some Mark.X)) (depth + 1) true
                (hchild i hi Mark.X).1 (hchild i hi Mark.X).2).mpr hwin)

lemma list_any_congr {p q : Nat → Bool} :
    ∀ {l : List Nat}, (∀ x ∈ l, p x = q x) → l.any p = l.any q := by
  intro l
  induction l with
  | nil => intro _; rfl
  | cons x xs ih =>
    intro h
    rw [List.any_cons, List.any_cons, h x (List.mem_cons_self _ _),
      ih fun y hy => h y (List.mem_cons_of_mem _ hy)]

lemma list_all_congr {p q : Nat → Bool} :
    ∀ {l : List Nat}, (∀ x ∈ l, p x = q x) → l.all p = l.all q := by
  intro l
  induction l with
  | nil => intro _; rfl
  | cons x xs ih =>
    intro h
    rw [List.all_cons, List.all_cons, h x (List.mem_cons_self _ _),
      ih fun y hy => h y (List.mem_cons_of_mem _ hy)]

/-- `xCanForceWin` does not depend on the fuel once the fuel covers the
number of empty cells. -/
lemma xCanForceWin_fuel_irrel :
    ∀ (f1 f2 : Nat) (b : Board) (t : Bool),
      (getEmptyIndices b).length ≤ f1 → (getEmptyIndices b).length ≤ f2 →
      xCanForceWin f1 b t = xCanForceWin f2 b t := by
  intro f1
  induction f1 with
  | zero =>
    intro f2 b t h1 h2
    cases hcw : checkWinner b with
    | some w =>
      cases w with
      | X => rw [xcfw_winX 0 t hcw, xcfw_winX f2 t hcw]
      | O => rw [xcfw_winO 0 t hcw, xcfw_winO f2 t hcw]
    | none =>
      cases hfull : isBoardFull b with
      | true => rw [xcfw_full 0 t hcw hfull, xcfw_full f2 t hcw hfull]
      | false =>
        have := getEmptyIndices_pos hfull
        omega
  | succ f1 ih =>
    intro f2 b t h1 h2
    cases hcw : checkWinner b with
    | some w =>
      cases w with
      | X => rw [xcfw_winX (f1 + 1) t hcw, xcfw_winX f2 t hcw]
      | O => rw [xcfw_winO (f1 + 1) t hcw, xcfw_winO f2 t hcw]
    | none =>
      cases hfull : isBoardFull b with
      | true => rw [xcfw_full (f1 + 1) t hcw hfull, xcfw_full f2 t hcw hfull]
      | false =>
        have hpos := getEmptyIndices_pos hfull
        cases f2 with
        | zero => omega
        | succ f2 =>
          have hchild : ∀ i ∈ getEmptyIndices b, ∀ m : Mark,
              (getEmptyIndices (b.set i (some m))).length ≤ f1 ∧
              (getEmptyIndices (b.set i (some m))).length ≤ f2 := by
            intro i hi m
            have := getEmptyIndices_set_length (m := m) hi
            omega
          cases t with
          | true =>
            rw [xcfw_xTurn_eq f1 hcw hfull, xcfw_xTurn_eq f2 hcw hfull]
            exact list_any_congr fun i hi =>
              ih f2 _ false (hchild i hi Mark.X).1 (hchild i hi Mark.X).2
          | false =>
            rw [xcfw_oTurn_eq f1 hcw hfull, xcfw_oTurn_eq f2 hcw hfull]
            exact list_all_congr fun i hi =>
              ih f2 _ true (hchild i hi Mark.O).1 (hchild i hi Mark.O).2

/-- The no-blunder property of the hard strategy: from a position where X
has no forced win and it is O's (minimax's) turn, the move minimax picks
leads again to a position where X has no forced win. -/
lemma minimax_choice_safe (board : Board)
    (hcw : checkWinner board = none) (hfull : isBoardFull board = false)
    (h9 : (getEmptyIndices board).length ≤ 9)
    (hsafe : xCanForceWin 10 board false = false) :
    ∃ j ∈ getEmptyIndices board, (minimax 10 board 0 true Mark.O).index = some j ∧
      xCanForceWin 9 (board.set j (some Mark.O)) true = false := by
  have hmax := minimax_max_eq 9 board 0 hcw hfull
  obtain ⟨j, hj, hpick, hall, -⟩ :=
    pickBest_max_spec (oChildScore 9 board 0) (getEmptyIndices board)
      (getEmptyIndices_ne_nil hfull)
  have hchild : ∀ i ∈ getEmptyIndices board,
      (getEmptyIndices (board.set i (some Mark.O))).length < 9 ∧
      (0 + 1) + (getEmptyIndices (board.set i (some Mark.O))).length ≤ 9 := by
    intro i hi
    have := getEmptyIndices_set_length (m := Mark.O) hi
    have := getEmptyIndices_pos hfull
    omega
  have hsafe' := hsafe
  rw [show (10 : Nat) = 9 + 1 from rfl, xcfw_oTurn_eq 9 hcw hfull] at hsafe'
  obtain ⟨i0, hi0, h0⟩ := List.all_eq_false.mp hsafe'
  have h0' : xCanForceWin 9 (board.set i0 (some Mark.O)) true = false := by
    cases hv : xCanForceWin 9 (board.set i0 (some Mark.O)) true
    · rfl
    · exact absurd hv h0
  have hs_i0 : ¬ oChildScore 9 board 0 i0 < 0 := by
    intro hneg
    have hwin : xCanForceWin 9 (board.set i0 (some Mark.O)) true = true :=
      (minimax_sign_correct 9 _ (0 + 1) false (hchild i0 hi0).1 (hchild i0 hi0).2).mp hneg
    rw [h0'] at hwin
    cases hwin
  have hs_j : ¬ oChildScore 9 board 0 j < 0 := fun hneg =>
    hs_i0 (lt_of_le_of_lt (hall i0 hi0) hneg)
  have hsafe_j : xCanForceWin 9 (board.set j (some Mark.O)) true = false := by
    cases hv : xCanForceWin 9 (board.set j (some Mark.O)) true
    · rfl
    · exact absurd
        ((minimax_sign_correct 9 _ (0 + 1) false (hchild j hj).1 (hchild j hj).2).mpr hv)
        hs_j
  refine ⟨j, hj, ?_, hsafe_j⟩
  rw [show (10 : Nat) = 9 + 1 from rfl, hmax, hpick]

/-- The networked-free game loop of the claim: `xs` is the opponent's (X's)
intended moves in order, O replies with the hard strategy (`hardMove`,
i.e. `minimax(board, 0, true, "O").index`).  The game stops at a terminal
position; an exhausted or illegal opponent list abandons the game at the
current position, which loses no generality because the board reached that
way is reached by some fully legal list as well. -/
def simulate : Nat → Board → List Nat → Bool → Board
  | 0, board, _, _ => board
  | fuel + 1, board, xs, xTurn =>
    match checkWinner board with
    | some _ => board
    | none =>
      if isBoardFull board then board
      else
        if xTurn then
          match xs with
          | [] => board
          | i :: rest =>
            if i ∈ getEmptyIndices board then
              simulate fuel (board.set i (some Mark.X)) rest false
            else board
        else
          match hardMove board with
          | some i => simulate fuel (board.set i (some Mark.O)) xs true
          | none => board

lemma simulate_winner_eq {board : Board} {w : Mark} (fuel : Nat) (xs : List Nat)
    (t : Bool) (h : checkWinner board = some w) :
    simulate (fuel + 1) board xs t = board := by
  show (match checkWinner board with
    | some _ => board
    | none => _) = board
  rw [h]

lemma simulate_full_eq {board : Board} (fuel : Nat) (xs : List Nat) (t : Bool)
    (hcw : checkWinner board = none) (hfull : isBoardFull board = true) :
    simulate (fuel + 1) board xs t = board := by
  show (match checkWinner board with
    | some _ => board
    | none => _) = board
  rw [hcw, hfull]
  rfl

lemma simulate_x_nil_eq {board : Board} (fuel : Nat)
    (hcw : checkWinner board = none) (hfull : isBoardFull board = false) :
    simulate (fuel + 1) board [] true = board := by
  show (match checkWinner board with
    | some _ => board
    | none => _) = board
  rw [hcw, hfull]
  rfl

lemma simulate_x_cons_eq {board : Board} {i : Nat} (fuel : Nat) (rest : List Nat)
    (hcw : checkWinner board = none) (hfull : isBoardFull board = false)
    (hmem : i ∈ getEmptyIndices board) :
    simulate (fuel + 1) board (i :: rest) true
      = simulate fuel (board.set i (some Mark.X)) rest false := by
  show (match checkWinner board with
    | some _ => board
    | none => _) = _
  rw [hcw, hfull]
  show (if i ∈ getEmptyIndices board then _ else board) = _
  rw [if_pos hmem]

lemma simulate_x_cons_illegal_eq {board : Board} {i : Nat} (fuel : Nat) (rest : List Nat)
    (hcw : checkWinner board = none) (hfull : isBoardFull board = false)
    (hmem : i ∉ getEmptyIndices board) :
    simulate (fuel + 1) board (i :: rest) true = board := by
  show (match checkWinner board with
    | some _ => board
    | none => _) = _
  rw [hcw, hfull]
  show (if i ∈ getEmptyIndices board then _ else board) = _
  rw [if_neg hmem]

lemma simulate_o_eq {board : Board} {j : Nat} (fuel : Nat) (xs : List Nat)
    (hcw : checkWinner board = none) (hfull : isBoardFull board = false)
    (hidx : hardMove board = some j) :
    simulate (fuel + 1) board xs false
      = simulate fuel (board.set j (some Mark.O)) xs true := by
  show (match checkWinner board with
    | some _ => board
    | none => _) = _
  rw [hcw, hfull]
  show (match hardMove board with
    | some i => simulate fuel (board.set i (some Mark.O)) xs true
    | none => board) = _
  rw [hidx]

/-- Safety invariant along the simulated game: when X has no forced win,
following the hard strategy for O never reaches an X win. -/
lemma simulate_safe :
    ∀ (fuel : Nat) (board : Board) (xs : List Nat) (xTurn : Bool),
      (getEmptyIndices board).length ≤ fuel →
      (getEmptyIndices board).length ≤ 9 →
      xCanForceWin 9 board xTurn = false →
      checkWinner (simulate fuel board xs xTurn) ≠ some Mark.X := by
  intro fuel
  induction fuel with
  | zero =>
    intro board xs xTurn _ _ hinv
    exact xCanForceWin_false_no_winner hinv
  | succ fuel ih =>
    intro board xs xTurn hf h9 hinv
    have hnoX := xCanForceWin_false_no_winner hinv
    cases hcw : checkWinner board with
    | some w => rw [simulate_winner_eq fuel xs xTurn hcw]; exact hnoX
    | none =>
      cases hfull : isBoardFull board with
      | true => rw [simulate_full_eq fuel xs xTurn hcw hfull]; exact hnoX
      | false =>
        have hpos := getEmptyIndices_pos hfull
        cases xTurn with
        | true =>
          cases xs with
          | nil => rw [simulate_x_nil_eq fuel hcw hfull]; exact hnoX
          | cons i rest =>
            by_cases hmem : i ∈ getEmptyIndices board
            · rw [simulate_x_cons_eq fuel rest hcw hfull hmem]
              have hlen := getEmptyIndices_set_length (m := Mark.X) hmem
              have h8 : xCanForceWin 8 (board.set i (some Mark.X)) false = false := by
                have hinv' := hinv
                rw [show (9 : Nat) = 8 + 1 from rfl, xcfw_xTurn_eq 8 hcw hfull] at hinv'
                have := List.any_eq_false.mp hinv' i hmem
                cases hv : xCanForceWin 8 (board.set i (some Mark.X)) false
                · rfl
                · exact absurd hv this
              have hinv'' : xCanForceWin 9 (board.set i (some Mark.X)) false = false := by
                rw [xCanForceWin_fuel_irrel 9 8 _ false (by omega) (by omega)]
                exact h8
              exact ih _ rest false (by omega) (by omega) hinv''
            · rw [simulate_x_cons_illegal_eq fuel rest hcw hfull hmem]; exact hnoX
        | false =>
          have hsafe10 : xCanForceWin 10 board false = false := by
            rw [xCanForceWin_fuel_irrel 10 9 board false (by omega) h9]
            exact hinv
          obtain ⟨j, hj, hidx, hsafe'⟩ := minimax_choice_safe board hcw hfull h9 hsafe10
          rw [simulate_o_eq fuel xs hcw hfull hidx]
          have hlen := getEmptyIndices_set_length (m := Mark.O) hj
          exact ih _ xs true (by omega) (by omega) hsafe'

/-- Certified escape checker: following the fixed reply table for O while
X tries every move, the game never reaches an X win.  `strat` supplies O's
reply; the checker verifies that the reply is a legal empty cell.  This is
only a *certificate*: `oEscapes_sound` shows that its success implies that
X has no forced win, whatever `strat` is. -/
def oEscapes (strat : Board → Option Nat) : Nat → Board → Bool → Bool
  | 0, board, _ => !(checkWinner board == some Mark.X)
  | fuel + 1, board, xTurn =>
    match checkWinner board with
    | some Mark.X => false
    | some Mark.O => true
    | none =>
      if isBoardFull board then true
      else
        if xTurn then
          (getEmptyIndices board).all fun i =>
            oEscapes strat fuel (board.set i (some Mark.X)) false
        else
          match strat board with
          | some i =>
            decide (i ∈ getEmptyIndices board)
              && oEscapes strat fuel (board.set i (some Mark.O)) true
          | none => false

lemma oEsc_winX_eq {board : Board} (strat : Board → Option Nat) (fuel : Nat) (t : Bool)
    (h : checkWinner board = some Mark.X) :
    oEscapes strat (fuel + 1) board t = false := by
  show (match checkWinner board with
    | some Mark.X => false
    | some Mark.O => true
    | none => _) = false
  rw [h]

lemma oEsc_x_eq {board : Board} (strat : Board → Option Nat) (fuel : Nat)
    (hcw : checkWinner board = none) (hfull : isBoardFull board = false) :
    oEscapes strat (fuel + 1) board true =
      (getEmptyIndices board).all fun i =>
        oEscapes strat fuel (board.set i (some Mark.X)) false := by
  show (match checkWinner board with
    | some Mark.X => false
    | some Mark.O => true
    | none => _) = _
  rw [hcw, hfull]
  rfl

lemma oEsc_o_some_eq {board : Board} {j : Nat} (strat : Board → Option Nat) (fuel : Nat)
    (hcw : checkWinner board = none) (hfull : isBoardFull board = false)
    (hst : strat board = some j) :
    oEscapes strat (fuel + 1) board false =
      (decide (j ∈ getEmptyIndices board)
        && oEscapes strat fuel (board.set j (some Mark.O)) true) := by
  show (match checkWinner board with
    | some Mark.X => false
    | some Mark.O => true
    | none => _) = _
  rw [hcw, hfull]
  show (match strat board with
    | some i => decide (i ∈ getEmptyIndices board)
        && oEscapes strat fuel (board.set i (some Mark.O)) true
    | none => false) = _
  rw [hst]

lemma oEsc_o_none_eq {board : Board} (strat : Board → Option Nat) (fuel : Nat)
    (hcw : checkWinner board = none) (hfull : isBoardFull board = false)
    (hst : strat board = none) :
    oEscapes strat (fuel + 1) board false = false := by
  show (match checkWinner board with
    | some Mark.X => false
    | some Mark.O => true
    | none => _) = _
  rw [hcw, hfull]
  show (match strat board with
    | some i => decide (i ∈ getEmptyIndices board)
        && oEscapes strat fuel (board.set i (some Mark.O)) true
    | none => false) = _
  rw [hst]

/-- Soundness of the escape checker: if it succeeds, X has no forced win. -/
lemma oEscapes_sound (strat : Board → Option Nat) :
    ∀ (fuel : Nat) (board : Board) (t : Bool),
      oEscapes strat fuel board t = true → xCanForceWin fuel board t = false := by
  intro fuel
  induction fuel with
  | zero =>
    intro board t h
    show (checkWinner board == some Mark.X) = false
    have h' : (!(checkWinner board == some Mark.X)) = true := h
    cases hv : (checkWinner board == some Mark.X)
    · rfl
    · rw [hv] at h'; cases h'
  | succ fuel ih =>
    intro board t h
    cases hcw : checkWinner board with
    | some w =>
      cases w with
      | X => rw [oEsc_winX_eq strat fuel t hcw] at h; cases h
      | O => exact xcfw_winO (fuel + 1) t hcw
    | none =>
      cases hfull : isBoardFull board with
      | true => exact xcfw_full (fuel + 1) t hcw hfull
      | false =>
        cases t with
        | true =>
          rw [oEsc_x_eq strat fuel hcw hfull] at h
          rw [xcfw_xTurn_eq fuel hcw hfull, List.any_eq_false]
          intro i hi hcontra
          have hrec := List.all_eq_true.mp h i hi
          have := ih _ _ hrec
          rw [this] at hcontra
          cases hcontra
        | false =>
          cases hst : strat board with
          | none => rw [oEsc_o_none_eq strat fuel hcw hfull hst] at h; cases h
          | some j =>
            rw [oEsc_o_some_eq strat fuel hcw hfull hst, Bool.and_eq_true] at h
            obtain ⟨hmem', hrec⟩ := h
            have hmem : j ∈ getEmptyIndices board := of_decide_eq_true hmem'
            have hchild := ih _ _ hrec
            rw [xcfw_oTurn_eq fuel hcw hfull, List.all_eq_false]
            refine ⟨j, hmem, fun hx => ?_⟩
            rw [hchild] at hx
            cases hx

/-- The fixed reply table for O used by the escape certificate, as a binary
decision tree over the base-3 encoding of the board (cell 0 is the least
significant digit; empty = 0, X = 1, O = 2).  The table was computed
offline with the same minimax procedure; nothing about its provenance is
trusted — only the checked run of `oEscapes` below matters. -/
def stratLookup (e : Nat) : Option Nat :=
  if e < 4092 then
    if e < 1346 then
      if e < 453 then
        if e < 243 then
          if e < 86 then
            if e < 27 then
              if e < 5 then
                if e < 1 then
                  if e == 0 then some 0 else none
                else
                  if e < 3 then
                    if e == 1 then some 4 else none
                  else
                    if e == 3 then some 0 else none
              else
                if e < 11 then
                  if e < 9 then
                    if e == 5 then some 3 else none
                  else
                    if e == 9 then some 4 else none
                else
                  if e < 14 then
                    if e == 11 then some 3 else none
                  else
                    if e == 14 then some 3 else none
            else
              if e < 44 then
                if e < 32 then
                  if e < 29 then
                    if e == 27 then some 0 else none
                  else
                    if e == 29 then some 1 else none
                else
                  if e < 38 then
                    if e == 32 then some 4 else none
                  else
                    if e == 38 then some 4 else none
              else
                if e < 81 then
                  if e < 68 then
                    if e == 44 then some 4 else none
                  else
                    if e == 68 then some 6 else none
                else
                  if e < 83 then
                    if e == 81 then some 0 else none
                  else
                    if e == 83 then some 1 else none
          else
            if e < 166 then
              if e < 116 then
                if e < 98 then
                  if e < 92 then
                    if e == 86 then some 7 else none
                  else
                    if e == 92 then some 6 else none
                else
                  if e < 110 then
                    if e == 98 then some 6 else none
                  else
                    if e == 110 then some 5 else none
              else
                if e < 146 then
                  if e < 140 then
                    if e == 116 then some 2 else none
                  else
                    if e == 140 then some 6 else none
                else
                  if e < 149 then
                    if e == 146 then some 6 else none
                  else
                    if e == 149 then some 6 else none
            else
              if e < 198 then
                if e < 174 then
                  if e < 172 then
                    if e == 166 then some 2 else none
                  else
                    if e == 172 then some 1 else none
                else
                  if e < 190 then
                    if e == 174 then some 0 else none
                  else
                    if e == 190 then some 6 else none
              else
                if e < 205 then
                  if e < 203 then
                    if e == 198 then some 0 else none
                  else
                    if e == 203 then some 8 else none
                else
                  if e < 211 then
                    if e == 205 then some 7 else none
                  else
                    if e == 211 then some 6 else none
        else
          if e < 342 then
            if e < 288 then
              if e < 264 then
                if e < 248 then
                  if e < 245 then
                    if e == 243 then some 2 else none
                  else
                    if e == 245 then some 2 else none
                else
                  if e < 262 then
                    if e == 248 then some 6 else none
                  else
                    if e == 262 then some 3 else none
              else
                if e < 272 then
                  if e < 266 then
                    if e == 264 then some 3 else none
                  else
                    if e == 266 then some 4 else none
                else
                  if e < 278 then
                    if e == 272 then some 4 else none
                  else
                    if e == 278 then some 2 else none
            else
              if e < 311 then
                if e < 302 then
                  if e < 290 then
                    if e == 288 then some 4 else none
                  else
                    if e == 290 then some 1 else none
                else
                  if e < 308 then
                    if e == 302 then some 6 else none
                  else
                    if e == 308 then some 6 else none
              else
                if e < 326 then
                  if e < 319 then
                    if e == 311 then some 6 else none
                  else
                    if e == 319 then some 4 else none
                else
                  if e < 332 then
                    if e == 326 then some 3 else none
                  else
                    if e == 332 then some 2 else none
          else
            if e < 419 then
              if e < 397 then
                if e < 383 then
                  if e < 344 then
                    if e == 342 then some 3 else none
                  else
                    if e == 344 then some 1 else none
                else
                  if e < 389 then
                    if e == 383 then some 6 else none
                  else
                    if e == 389 then some 6 else none
              else
                if e < 406 then
                  if e < 399 then
                    if e == 397 then some 8 else none
                  else
                    if e == 399 then some 7 else none
                else
                  if e < 414 then
                    if e == 406 then some 1 else none
                  else
                    if e == 414 then some 8 else none
            else
              if e < 439 then
                if e < 427 then
                  if e < 421 then
                    if e == 419 then some 8 else none
                  else
                    if e == 421 then some 7 else none
                else
                  if e < 437 then
                    if e == 427 then some 6 else none
                  else
                    if e == 437 then some 8 else none
              else
                if e < 449 then
                  if e < 443 then
                    if e == 439 then some 7 else none
                  else
                    if e == 443 then some 8 else none
                else
                  if e < 451 then
                    if e == 449 then some 7 else none
                  else
                    if e == 451 then some 6 else none
      else
        if e < 955 then
          if e < 818 then
            if e < 746 then
              if e < 605 then
                if e < 455 then
                  if e == 453 then some 6 else none
                else
                  if e < 599 then
                    if e == 455 then some 6 else none
                  else
                    if e == 599 then some 7 else none
              else
                if e < 731 then
                  if e < 729 then
                    if e == 605 then some 6 else none
                  else
                    if e == 729 then some 4 else none
                else
                  if e < 734 then
                    if e == 731 then some 1 else none
                  else
                    if e == 734 then some 4 else none
            else
              if e < 788 then
                if e < 764 then
                  if e < 758 then
                    if e == 746 then some 4 else none
                  else
                    if e == 758 then some 1 else none
                else
                  if e < 773 then
                    if e == 764 then some 2 else none
                  else
                    if e == 773 then some 4 else none
              else
                if e < 797 then
                  if e < 794 then
                    if e == 788 then some 4 else none
                  else
                    if e == 794 then some 4 else none
                else
                  if e < 812 then
                    if e == 797 then some 4 else none
                  else
                    if e == 812 then some 2 else none
          else
            if e < 907 then
              if e < 892 then
                if e < 845 then
                  if e < 833 then
                    if e == 818 then some 2 else none
                  else
                    if e == 833 then some 7 else none
                else
                  if e < 857 then
                    if e == 845 then some 2 else none
                  else
                    if e == 857 then some 1 else none
              else
                if e < 900 then
                  if e < 894 then
                    if e == 892 then some 3 else none
                  else
                    if e == 894 then some 0 else none
                else
                  if e < 905 then
                    if e == 900 then some 1 else none
                  else
                    if e == 905 then some 8 else none
            else
              if e < 929 then
                if e < 918 then
                  if e < 913 then
                    if e == 907 then some 7 else none
                  else
                    if e == 913 then some 3 else none
                else
                  if e < 923 then
                    if e == 918 then some 0 else none
                  else
                    if e == 923 then some 8 else none
              else
                if e < 935 then
                  if e < 933 then
                    if e == 929 then some 8 else none
                  else
                    if e == 933 then some 7 else none
                else
                  if e < 949 then
                    if e == 935 then some 7 else none
                  else
                    if e == 949 then some 5 else none
        else
          if e < 1141 then
            if e < 1045 then
              if e < 992 then
                if e < 980 then
                  if e < 959 then
                    if e == 955 then some 5 else none
                  else
                    if e == 959 then some 5 else none
                else
                  if e < 990 then
                    if e == 980 then some 2 else none
                  else
                    if e == 990 then some 0 else none
              else
                if e < 1007 then
                  if e < 995 then
                    if e == 992 then some 1 else none
                  else
                    if e == 995 then some 4 else none
                else
                  if e < 1019 then
                    if e == 1007 then some 2 else none
                  else
                    if e == 1019 then some 1 else none
            else
              if e < 1125 then
                if e < 1073 then
                  if e < 1047 then
                    if e == 1045 then some 4 else none
                  else
                    if e == 1047 then some 4 else none
                else
                  if e < 1109 then
                    if e == 1073 then some 1 else none
                  else
                    if e == 1109 then some 2 else none
              else
                if e < 1134 then
                  if e < 1130 then
                    if e == 1125 then some 0 else none
                  else
                    if e == 1130 then some 7 else none
                else
                  if e < 1139 then
                    if e == 1134 then some 1 else none
                  else
                    if e == 1139 then some 8 else none
          else
            if e < 1184 then
              if e < 1163 then
                if e < 1151 then
                  if e < 1149 then
                    if e == 1141 then some 7 else none
                  else
                    if e == 1149 then some 7 else none
                else
                  if e < 1157 then
                    if e == 1151 then some 7 else none
                  else
                    if e == 1157 then some 8 else none
              else
                if e < 1178 then
                  if e < 1167 then
                    if e == 1163 then some 8 else none
                  else
                    if e == 1167 then some 7 else none
                else
                  if e < 1179 then
                    if e == 1178 then some 7 else none
                  else
                    if e == 1179 then some 0 else none
            else
              if e < 1202 then
                if e < 1193 then
                  if e < 1189 then
                    if e == 1184 then some 8 else none
                  else
                    if e == 1189 then some 1 else none
                else
                  if e < 1199 then
                    if e == 1193 then some 8 else none
                  else
                    if e == 1199 then some 8 else none
              else
                if e < 1210 then
                  if e < 1204 then
                    if e == 1202 then some 8 else none
                  else
                    if e == 1204 then some 7 else none
                else
                  if e < 1325 then
                    if e == 1210 then some 7 else none
                  else
                    if e == 1325 then some 2 else none
    else
      if e < 2621 then
        if e < 2276 then
          if e < 2187 then
            if e < 1733 then
              if e < 1583 then
                if e < 1553 then
                  if e == 1346 then some 8 else none
                else
                  if e < 1577 then
                    if e == 1553 then some 3 else none
                  else
                    if e == 1577 then some 5 else none
              else
                if e < 1657 then
                  if e < 1651 then
                    if e == 1583 then some 5 else none
                  else
                    if e == 1651 then some 2 else none
                else
                  if e < 1715 then
                    if e == 1657 then some 1 else none
                  else
                    if e == 1715 then some 3 else none
            else
              if e < 1891 then
                if e < 1793 then
                  if e < 1787 then
                    if e == 1733 then some 4 else none
                  else
                    if e == 1787 then some 3 else none
                else
                  if e < 1799 then
                    if e == 1793 then some 3 else none
                  else
                    if e == 1799 then some 3 else none
              else
                if e < 1906 then
                  if e < 1904 then
                    if e == 1891 then some 2 else none
                  else
                    if e == 1904 then some 8 else none
                else
                  if e < 2066 then
                    if e == 1906 then some 7 else none
                  else
                    if e == 2066 then some 7 else none
          else
            if e < 2222 then
              if e < 2202 then
                if e < 2192 then
                  if e < 2189 then
                    if e == 2187 then some 1 else none
                  else
                    if e == 2189 then some 2 else none
                else
                  if e < 2194 then
                    if e == 2192 then some 4 else none
                  else
                    if e == 2194 then some 6 else none
              else
                if e < 2216 then
                  if e < 2210 then
                    if e == 2202 then some 6 else none
                  else
                    if e == 2210 then some 4 else none
                else
                  if e < 2220 then
                    if e == 2216 then some 2 else none
                  else
                    if e == 2220 then some 6 else none
            else
              if e < 2252 then
                if e < 2237 then
                  if e < 2234 then
                    if e == 2222 then some 2 else none
                  else
                    if e == 2234 then some 1 else none
                else
                  if e < 2246 then
                    if e == 2237 then some 4 else none
                  else
                    if e == 2246 then some 6 else none
              else
                if e < 2270 then
                  if e < 2255 then
                    if e == 2252 then some 6 else none
                  else
                    if e == 2255 then some 6 else none
                else
                  if e < 2274 then
                    if e == 2270 then some 1 else none
                  else
                    if e == 2274 then some 0 else none
        else
          if e < 2415 then
            if e < 2365 then
              if e < 2315 then
                if e < 2288 then
                  if e < 2285 then
                    if e == 2276 then some 2 else none
                  else
                    if e == 2285 then some 6 else none
                else
                  if e < 2303 then
                    if e == 2288 then some 1 else none
                  else
                    if e == 2303 then some 2 else none
              else
                if e < 2358 then
                  if e < 2350 then
                    if e == 2315 then some 1 else none
                  else
                    if e == 2350 then some 3 else none
                else
                  if e < 2363 then
                    if e == 2358 then some 3 else none
                  else
                    if e == 2363 then some 8 else none
            else
              if e < 2393 then
                if e < 2381 then
                  if e < 2371 then
                    if e == 2365 then some 3 else none
                  else
                    if e == 2371 then some 6 else none
                else
                  if e < 2387 then
                    if e == 2381 then some 8 else none
                  else
                    if e == 2387 then some 8 else none
              else
                if e < 2407 then
                  if e < 2399 then
                    if e == 2393 then some 8 else none
                  else
                    if e == 2399 then some 6 else none
                else
                  if e < 2413 then
                    if e == 2407 then some 5 else none
                  else
                    if e == 2413 then some 5 else none
          else
            if e < 2519 then
              if e < 2453 then
                if e < 2448 then
                  if e < 2436 then
                    if e == 2415 then some 5 else none
                  else
                    if e == 2436 then some 6 else none
                else
                  if e < 2450 then
                    if e == 2448 then some 0 else none
                  else
                    if e == 2450 then some 1 else none
              else
                if e < 2503 then
                  if e < 2477 then
                    if e == 2453 then some 4 else none
                  else
                    if e == 2477 then some 1 else none
                else
                  if e < 2505 then
                    if e == 2503 then some 4 else none
                  else
                    if e == 2505 then some 4 else none
            else
              if e < 2590 then
                if e < 2567 then
                  if e < 2531 then
                    if e == 2519 then some 2 else none
                  else
                    if e == 2531 then some 1 else none
                else
                  if e < 2583 then
                    if e == 2567 then some 6 else none
                  else
                    if e == 2583 then some 1 else none
              else
                if e < 2599 then
                  if e < 2597 then
                    if e == 2590 then some 8 else none
                  else
                    if e == 2597 then some 8 else none
                else
                  if e < 2615 then
                    if e == 2599 then some 6 else none
                  else
                    if e == 2615 then some 6 else none
      else
        if e < 3314 then
          if e < 3078 then
            if e < 2798 then
              if e < 2655 then
                if e < 2642 then
                  if e < 2637 then
                    if e == 2621 then some 8 else none
                  else
                    if e == 2637 then some 6 else none
                else
                  if e < 2647 then
                    if e == 2642 then some 6 else none
                  else
                    if e == 2647 then some 2 else none
              else
                if e < 2668 then
                  if e < 2662 then
                    if e == 2655 then some 8 else none
                  else
                    if e == 2662 then some 8 else none
                else
                  if e < 2783 then
                    if e == 2668 then some 6 else none
                  else
                    if e == 2783 then some 1 else none
            else
              if e < 2951 then
                if e < 2924 then
                  if e < 2922 then
                    if e == 2798 then some 6 else none
                  else
                    if e == 2922 then some 8 else none
                else
                  if e < 2936 then
                    if e == 2924 then some 2 else none
                  else
                    if e == 2936 then some 1 else none
              else
                if e < 3005 then
                  if e < 2963 then
                    if e == 2951 then some 2 else none
                  else
                    if e == 2963 then some 1 else none
                else
                  if e < 3017 then
                    if e == 3005 then some 2 else none
                  else
                    if e == 3017 then some 1 else none
          else
            if e < 3133 then
              if e < 3101 then
                if e < 3093 then
                  if e < 3083 then
                    if e == 3078 then some 8 else none
                  else
                    if e == 3083 then some 8 else none
                else
                  if e < 3095 then
                    if e == 3093 then some 8 else none
                  else
                    if e == 3095 then some 8 else none
              else
                if e < 3122 then
                  if e < 3107 then
                    if e == 3101 then some 8 else none
                  else
                    if e == 3107 then some 8 else none
                else
                  if e < 3128 then
                    if e == 3122 then some 8 else none
                  else
                    if e == 3128 then some 8 else none
            else
              if e < 3146 then
                if e < 3141 then
                  if e < 3137 then
                    if e == 3133 then some 5 else none
                  else
                    if e == 3137 then some 5 else none
                else
                  if e < 3143 then
                    if e == 3141 then some 5 else none
                  else
                    if e == 3143 then some 5 else none
              else
                if e < 3154 then
                  if e < 3148 then
                    if e == 3146 then some 5 else none
                  else
                    if e == 3148 then some 5 else none
                else
                  if e < 3179 then
                    if e == 3154 then some 5 else none
                  else
                    if e == 3179 then some 1 else none
        else
          if e < 3743 then
            if e < 3518 then
              if e < 3368 then
                if e < 3327 then
                  if e < 3318 then
                    if e == 3314 then some 1 else none
                  else
                    if e == 3318 then some 0 else none
                else
                  if e < 3344 then
                    if e == 3327 then some 8 else none
                  else
                    if e == 3344 then some 8 else none
              else
                if e < 3394 then
                  if e < 3382 then
                    if e == 3368 then some 1 else none
                  else
                    if e == 3382 then some 8 else none
                else
                  if e < 3396 then
                    if e == 3394 then some 8 else none
                  else
                    if e == 3396 then some 8 else none
            else
              if e < 3687 then
                if e < 3661 then
                  if e < 3530 then
                    if e == 3518 then some 2 else none
                  else
                    if e == 3530 then some 1 else none
                else
                  if e < 3679 then
                    if e == 3661 then some 4 else none
                  else
                    if e == 3679 then some 4 else none
              else
                if e < 3737 then
                  if e < 3733 then
                    if e == 3687 then some 4 else none
                  else
                    if e == 3733 then some 8 else none
                else
                  if e < 3741 then
                    if e == 3737 then some 3 else none
                  else
                    if e == 3741 then some 0 else none
          else
            if e < 3921 then
              if e < 3850 then
                if e < 3770 then
                  if e < 3759 then
                    if e == 3743 then some 3 else none
                  else
                    if e == 3759 then some 5 else none
                else
                  if e < 3835 then
                    if e == 3770 then some 5 else none
                  else
                    if e == 3835 then some 2 else none
              else
                if e < 3895 then
                  if e < 3893 then
                    if e == 3850 then some 5 else none
                  else
                    if e == 3893 then some 3 else none
                else
                  if e < 3903 then
                    if e == 3895 then some 4 else none
                  else
                    if e == 3903 then some 8 else none
            else
              if e < 4038 then
                if e < 3986 then
                  if e < 3975 then
                    if e == 3921 then some 4 else none
                  else
                    if e == 3975 then some 3 else none
                else
                  if e < 4030 then
                    if e == 3986 then some 3 else none
                  else
                    if e == 4030 then some 8 else none
              else
                if e < 4082 then
                  if e < 4066 then
                    if e == 4038 then some 0 else none
                  else
                    if e == 4066 then some 8 else none
                else
                  if e < 4084 then
                    if e == 4082 then some 2 else none
                  else
                    if e == 4084 then some 2 else none
  else
    if e < 8933 then
      if e < 7011 then
        if e < 6650 then
          if e < 5502 then
            if e < 4703 then
              if e < 4254 then
                if e < 4246 then
                  if e == 4092 then some 8 else none
                else
                  if e < 4250 then
                    if e == 4246 then some 8 else none
                  else
                    if e == 4250 then some 1 else none
              else
                if e < 4469 then
                  if e < 4256 then
                    if e == 4254 then some 0 else none
                  else
                    if e == 4256 then some 8 else none
                else
                  if e < 4487 then
                    if e == 4469 then some 6 else none
                  else
                    if e == 4487 then some 5 else none
            else
              if e < 5189 then
                if e < 4774 then
                  if e < 4766 then
                    if e == 4703 then some 3 else none
                  else
                    if e == 4766 then some 6 else none
                else
                  if e < 4982 then
                    if e == 4774 then some 8 else none
                  else
                    if e == 4982 then some 6 else none
              else
                if e < 5450 then
                  if e < 5234 then
                    if e == 5189 then some 2 else none
                  else
                    if e == 5234 then some 5 else none
                else
                  if e < 5486 then
                    if e == 5450 then some 3 else none
                  else
                    if e == 5486 then some 2 else none
          else
            if e < 6590 then
              if e < 6561 then
                if e < 5954 then
                  if e < 5702 then
                    if e == 5502 then some 0 else none
                  else
                    if e == 5702 then some 2 else none
                else
                  if e < 6170 then
                    if e == 5954 then some 8 else none
                  else
                    if e == 6170 then some 3 else none
              else
                if e < 6566 then
                  if e < 6563 then
                    if e == 6561 then some 4 else none
                  else
                    if e == 6563 then some 2 else none
                else
                  if e < 6584 then
                    if e == 6566 then some 4 else none
                  else
                    if e == 6584 then some 6 else none
            else
              if e < 6620 then
                if e < 6608 then
                  if e < 6596 then
                    if e == 6590 then some 2 else none
                  else
                    if e == 6596 then some 2 else none
                else
                  if e < 6611 then
                    if e == 6608 then some 1 else none
                  else
                    if e == 6611 then some 4 else none
              else
                if e < 6629 then
                  if e < 6626 then
                    if e == 6620 then some 6 else none
                  else
                    if e == 6626 then some 6 else none
                else
                  if e < 6644 then
                    if e == 6629 then some 6 else none
                  else
                    if e == 6644 then some 2 else none
        else
          if e < 6824 then
            if e < 6739 then
              if e < 6724 then
                if e < 6665 then
                  if e < 6662 then
                    if e == 6650 then some 2 else none
                  else
                    if e == 6662 then some 1 else none
                else
                  if e < 6689 then
                    if e == 6665 then some 7 else none
                  else
                    if e == 6689 then some 1 else none
              else
                if e < 6732 then
                  if e < 6726 then
                    if e == 6724 then some 1 else none
                  else
                    if e == 6726 then some 0 else none
                else
                  if e < 6737 then
                    if e == 6732 then some 5 else none
                  else
                    if e == 6737 then some 5 else none
            else
              if e < 6757 then
                if e < 6750 then
                  if e < 6745 then
                    if e == 6739 then some 7 else none
                  else
                    if e == 6745 then some 6 else none
                else
                  if e < 6755 then
                    if e == 6750 then some 0 else none
                  else
                    if e == 6755 then some 2 else none
              else
                if e < 6767 then
                  if e < 6761 then
                    if e == 6757 then some 7 else none
                  else
                    if e == 6761 then some 5 else none
                else
                  if e < 6822 then
                    if e == 6767 then some 7 else none
                  else
                    if e == 6822 then some 0 else none
          else
            if e < 6962 then
              if e < 6879 then
                if e < 6851 then
                  if e < 6827 then
                    if e == 6824 then some 1 else none
                  else
                    if e == 6827 then some 6 else none
                else
                  if e < 6877 then
                    if e == 6851 then some 1 else none
                  else
                    if e == 6877 then some 4 else none
              else
                if e < 6941 then
                  if e < 6905 then
                    if e == 6879 then some 6 else none
                  else
                    if e == 6905 then some 1 else none
                else
                  if e < 6957 then
                    if e == 6941 then some 6 else none
                  else
                    if e == 6957 then some 0 else none
            else
              if e < 6985 then
                if e < 6971 then
                  if e < 6966 then
                    if e == 6962 then some 6 else none
                  else
                    if e == 6966 then some 2 else none
                else
                  if e < 6973 then
                    if e == 6971 then some 2 else none
                  else
                    if e == 6973 then some 7 else none
              else
                if e < 6989 then
                  if e < 6987 then
                    if e == 6985 then some 6 else none
                  else
                    if e == 6987 then some 6 else none
                else
                  if e < 6995 then
                    if e == 6989 then some 6 else none
                  else
                    if e == 6995 then some 2 else none
      else
        if e < 7742 then
          if e < 7459 then
            if e < 7250 then
              if e < 7172 then
                if e < 7042 then
                  if e < 7016 then
                    if e == 7011 then some 6 else none
                  else
                    if e == 7016 then some 6 else none
                else
                  if e < 7157 then
                    if e == 7042 then some 6 else none
                  else
                    if e == 7157 then some 1 else none
              else
                if e < 7221 then
                  if e < 7219 then
                    if e == 7172 then some 6 else none
                  else
                    if e == 7219 then some 3 else none
                else
                  if e < 7245 then
                    if e == 7221 then some 3 else none
                  else
                    if e == 7245 then some 0 else none
            else
              if e < 7337 then
                if e < 7310 then
                  if e < 7298 then
                    if e == 7250 then some 6 else none
                  else
                    if e == 7298 then some 2 else none
                else
                  if e < 7325 then
                    if e == 7310 then some 1 else none
                  else
                    if e == 7325 then some 2 else none
              else
                if e < 7452 then
                  if e < 7391 then
                    if e == 7337 then some 1 else none
                  else
                    if e == 7391 then some 1 else none
                else
                  if e < 7457 then
                    if e == 7452 then some 7 else none
                  else
                    if e == 7457 then some 7 else none
          else
            if e < 7517 then
              if e < 7496 then
                if e < 7469 then
                  if e < 7467 then
                    if e == 7459 then some 7 else none
                  else
                    if e == 7467 then some 7 else none
                else
                  if e < 7481 then
                    if e == 7469 then some 7 else none
                  else
                    if e == 7481 then some 7 else none
              else
                if e < 7507 then
                  if e < 7502 then
                    if e == 7496 then some 7 else none
                  else
                    if e == 7502 then some 7 else none
                else
                  if e < 7511 then
                    if e == 7507 then some 5 else none
                  else
                    if e == 7511 then some 5 else none
            else
              if e < 7688 then
                if e < 7528 then
                  if e < 7520 then
                    if e == 7517 then some 5 else none
                  else
                    if e == 7520 then some 5 else none
                else
                  if e < 7553 then
                    if e == 7528 then some 5 else none
                  else
                    if e == 7553 then some 1 else none
              else
                if e < 7713 then
                  if e < 7701 then
                    if e == 7688 then some 1 else none
                  else
                    if e == 7701 then some 7 else none
                else
                  if e < 7718 then
                    if e == 7713 then some 7 else none
                  else
                    if e == 7718 then some 7 else none
        else
          if e < 8285 then
            if e < 7976 then
              if e < 7892 then
                if e < 7768 then
                  if e < 7756 then
                    if e == 7742 then some 1 else none
                  else
                    if e == 7756 then some 7 else none
                else
                  if e < 7770 then
                    if e == 7768 then some 7 else none
                  else
                    if e == 7770 then some 7 else none
              else
                if e < 7947 then
                  if e < 7904 then
                    if e == 7892 then some 2 else none
                  else
                    if e == 7904 then some 1 else none
                else
                  if e < 7952 then
                    if e == 7947 then some 3 else none
                  else
                    if e == 7952 then some 3 else none
            else
              if e < 8123 then
                if e < 8111 then
                  if e < 8069 then
                    if e == 7976 then some 7 else none
                  else
                    if e == 8069 then some 4 else none
                else
                  if e < 8117 then
                    if e == 8111 then some 3 else none
                  else
                    if e == 8117 then some 3 else none
              else
                if e < 8224 then
                  if e < 8209 then
                    if e == 8123 then some 3 else none
                  else
                    if e == 8209 then some 2 else none
                else
                  if e < 8267 then
                    if e == 8224 then some 7 else none
                  else
                    if e == 8267 then some 3 else none
          else
            if e < 8754 then
              if e < 8418 then
                if e < 8338 then
                  if e < 8312 then
                    if e == 8285 then some 3 else none
                  else
                    if e == 8312 then some 4 else none
                else
                  if e < 8366 then
                    if e == 8338 then some 4 else none
                  else
                    if e == 8366 then some 3 else none
              else
                if e < 8624 then
                  if e < 8456 then
                    if e == 8418 then some 0 else none
                  else
                    if e == 8456 then some 2 else none
                else
                  if e < 8630 then
                    if e == 8624 then some 1 else none
                  else
                    if e == 8630 then some 7 else none
            else
              if e < 8849 then
                if e < 8795 then
                  if e < 8768 then
                    if e == 8754 then some 6 else none
                  else
                    if e == 8768 then some 1 else none
                else
                  if e < 8837 then
                    if e == 8795 then some 1 else none
                  else
                    if e == 8837 then some 2 else none
              else
                if e < 8915 then
                  if e < 8910 then
                    if e == 8849 then some 1 else none
                  else
                    if e == 8910 then some 6 else none
                else
                  if e < 8917 then
                    if e == 8915 then some 6 else none
                  else
                    if e == 8917 then some 6 else none
    else
      if e < 11768 then
        if e < 10384 then
          if e < 9405 then
            if e < 9146 then
              if e < 8965 then
                if e < 8939 then
                  if e == 8933 then some 6 else none
                else
                  if e < 8960 then
                    if e == 8939 then some 6 else none
                  else
                    if e == 8960 then some 6 else none
              else
                if e < 8980 then
                  if e < 8973 then
                    if e == 8965 then some 5 else none
                  else
                    if e == 8973 then some 5 else none
                else
                  if e < 9011 then
                    if e == 8980 then some 5 else none
                  else
                    if e == 9011 then some 1 else none
            else
              if e < 9200 then
                if e < 9171 then
                  if e < 9150 then
                    if e == 9146 then some 1 else none
                  else
                    if e == 9150 then some 0 else none
                else
                  if e < 9176 then
                    if e == 9171 then some 6 else none
                  else
                    if e == 9176 then some 6 else none
              else
                if e < 9228 then
                  if e < 9226 then
                    if e == 9200 then some 1 else none
                  else
                    if e == 9226 then some 6 else none
                else
                  if e < 9350 then
                    if e == 9228 then some 6 else none
                  else
                    if e == 9350 then some 2 else none
          else
            if e < 10293 then
              if e < 10221 then
                if e < 9434 then
                  if e < 9410 then
                    if e == 9405 then some 3 else none
                  else
                    if e == 9410 then some 3 else none
                else
                  if e < 10213 then
                    if e == 9434 then some 6 else none
                  else
                    if e == 10213 then some 4 else none
              else
                if e < 10239 then
                  if e < 10229 then
                    if e == 10221 then some 5 else none
                  else
                    if e == 10229 then some 3 else none
                else
                  if e < 10258 then
                    if e == 10239 then some 2 else none
                  else
                    if e == 10258 then some 4 else none
            else
              if e < 10369 then
                if e < 10322 then
                  if e < 10304 then
                    if e == 10293 then some 0 else none
                  else
                    if e == 10304 then some 3 else none
                else
                  if e < 10338 then
                    if e == 10322 then some 2 else none
                  else
                    if e == 10338 then some 0 else none
              else
                if e < 10377 then
                  if e < 10371 then
                    if e == 10369 then some 2 else none
                  else
                    if e == 10371 then some 2 else none
                else
                  if e < 10382 then
                    if e == 10377 then some 5 else none
                  else
                    if e == 10382 then some 3 else none
        else
          if e < 10618 then
            if e < 10474 then
              if e < 10406 then
                if e < 10400 then
                  if e < 10395 then
                    if e == 10384 then some 5 else none
                  else
                    if e == 10395 then some 2 else none
                else
                  if e < 10402 then
                    if e == 10400 then some 2 else none
                  else
                    if e == 10402 then some 2 else none
              else
                if e < 10455 then
                  if e < 10410 then
                    if e == 10406 then some 5 else none
                  else
                    if e == 10410 then some 5 else none
                else
                  if e < 10472 then
                    if e == 10455 then some 2 else none
                  else
                    if e == 10472 then some 3 else none
            else
              if e < 10554 then
                if e < 10524 then
                  if e < 10500 then
                    if e == 10474 then some 4 else none
                  else
                    if e == 10500 then some 0 else none
                else
                  if e < 10538 then
                    if e == 10524 then some 0 else none
                  else
                    if e == 10538 then some 2 else none
              else
                if e < 10611 then
                  if e < 10590 then
                    if e == 10554 then some 0 else none
                  else
                    if e == 10590 then some 0 else none
                else
                  if e < 10616 then
                    if e == 10611 then some 2 else none
                  else
                    if e == 10616 then some 2 else none
          else
            if e < 10866 then
              if e < 10734 then
                if e < 10644 then
                  if e < 10640 then
                    if e == 10618 then some 2 else none
                  else
                    if e == 10640 then some 2 else none
                else
                  if e < 10708 then
                    if e == 10644 then some 2 else none
                  else
                    if e == 10708 then some 4 else none
              else
                if e < 10806 then
                  if e < 10788 then
                    if e == 10734 then some 0 else none
                  else
                    if e == 10788 then some 0 else none
                else
                  if e < 10864 then
                    if e == 10806 then some 0 else none
                  else
                    if e == 10864 then some 3 else none
            else
              if e < 11282 then
                if e < 11021 then
                  if e < 10890 then
                    if e == 10866 then some 3 else none
                  else
                    if e == 10890 then some 0 else none
                else
                  if e < 11066 then
                    if e == 11021 then some 2 else none
                  else
                    if e == 11066 then some 5 else none
              else
                if e < 11334 then
                  if e < 11318 then
                    if e == 11282 then some 3 else none
                  else
                    if e == 11318 then some 6 else none
                else
                  if e < 11534 then
                    if e == 11334 then some 0 else none
                  else
                    if e == 11534 then some 2 else none
      else
        if e < 16108 then
          if e < 13537 then
            if e < 12069 then
              if e < 11840 then
                if e < 11829 then
                  if e < 11827 then
                    if e == 11768 then some 3 else none
                  else
                    if e == 11827 then some 1 else none
                else
                  if e < 11835 then
                    if e == 11829 then some 0 else none
                  else
                    if e == 11835 then some 1 else none
              else
                if e < 11858 then
                  if e < 11853 then
                    if e == 11840 then some 5 else none
                  else
                    if e == 11853 then some 1 else none
                else
                  if e < 11864 then
                    if e == 11858 then some 2 else none
                  else
                    if e == 11864 then some 1 else none
            else
              if e < 12098 then
                if e < 12088 then
                  if e < 12074 then
                    if e == 12069 then some 1 else none
                  else
                    if e == 12074 then some 2 else none
                else
                  if e < 12090 then
                    if e == 12088 then some 1 else none
                  else
                    if e == 12090 then some 0 else none
              else
                if e < 12488 then
                  if e < 12114 then
                    if e == 12098 then some 1 else none
                  else
                    if e == 12114 then some 1 else none
                else
                  if e < 13522 then
                    if e == 12488 then some 3 else none
                  else
                    if e == 13522 then some 7 else none
          else
            if e < 15723 then
              if e < 14248 then
                if e < 13563 then
                  if e < 13539 then
                    if e == 13537 then some 1 else none
                  else
                    if e == 13539 then some 0 else none
                else
                  if e < 13570 then
                    if e == 13563 then some 0 else none
                  else
                    if e == 13570 then some 7 else none
              else
                if e < 14272 then
                  if e < 14265 then
                    if e == 14248 then some 1 else none
                  else
                    if e == 14265 then some 0 else none
                else
                  if e < 15706 then
                    if e == 14272 then some 7 else none
                  else
                    if e == 15706 then some 1 else none
            else
              if e < 16045 then
                if e < 15778 then
                  if e < 15730 then
                    if e == 15723 then some 0 else none
                  else
                    if e == 15730 then some 3 else none
                else
                  if e < 15780 then
                    if e == 15778 then some 1 else none
                  else
                    if e == 15780 then some 0 else none
              else
                if e < 16071 then
                  if e < 16053 then
                    if e == 16045 then some 3 else none
                  else
                    if e == 16053 then some 4 else none
                else
                  if e < 16082 then
                    if e == 16071 then some 0 else none
                  else
                    if e == 16082 then some 4 else none
        else
          if e < 16316 then
            if e < 16209 then
              if e < 16170 then
                if e < 16144 then
                  if e < 16125 then
                    if e == 16108 then some 4 else none
                  else
                    if e == 16125 then some 2 else none
                else
                  if e < 16154 then
                    if e == 16144 then some 5 else none
                  else
                    if e == 16154 then some 2 else none
              else
                if e < 16201 then
                  if e < 16180 then
                    if e == 16170 then some 0 else none
                  else
                    if e == 16180 then some 2 else none
                else
                  if e < 16203 then
                    if e == 16201 then some 3 else none
                  else
                    if e == 16203 then some 0 else none
            else
              if e < 16258 then
                if e < 16227 then
                  if e < 16216 then
                    if e == 16209 then some 0 else none
                  else
                    if e == 16216 then some 3 else none
                else
                  if e < 16242 then
                    if e == 16227 then some 0 else none
                  else
                    if e == 16242 then some 0 else none
              else
                if e < 16287 then
                  if e < 16264 then
                    if e == 16258 then some 5 else none
                  else
                    if e == 16264 then some 5 else none
                else
                  if e < 16298 then
                    if e == 16287 then some 0 else none
                  else
                    if e == 16298 then some 4 else none
          else
            if e < 16498 then
              if e < 16443 then
                if e < 16370 then
                  if e < 16342 then
                    if e == 16316 then some 2 else none
                  else
                    if e == 16342 then some 2 else none
                else
                  if e < 16386 then
                    if e == 16370 then some 2 else none
                  else
                    if e == 16386 then some 0 else none
              else
                if e < 16458 then
                  if e < 16450 then
                    if e == 16443 then some 0 else none
                  else
                    if e == 16450 then some 3 else none
                else
                  if e < 16476 then
                    if e == 16458 then some 0 else none
                  else
                    if e == 16476 then some 0 else none
            else
              if e < 17026 then
                if e < 16864 then
                  if e < 16506 then
                    if e == 16498 then some 1 else none
                  else
                    if e == 16506 then some 0 else none
                else
                  if e < 16882 then
                    if e == 16864 then some 3 else none
                  else
                    if e == 16882 then some 5 else none
              else
                if e < 17098 then
                  if e < 17052 then
                    if e == 17026 then some 3 else none
                  else
                    if e == 17052 then some 4 else none
                else
                  if e < 17106 then
                    if e == 17098 then some 3 else none
                  else
                    if e == 17106 then some 3 else none

/-- Base-3 encoding of a board, cell 0 least significant. -/
def encodeBoard (b : Board) : Nat :=
  b.foldr
    (fun c acc => acc * 3 +
      (match c with
       | none => 0
       | some Mark.X => 1
       | some Mark.O => 2))
    0

/-- O's table strategy. -/
def tableStrat (b : Board) : Option Nat := stratLookup (encodeBoard b)

set_option maxRecDepth 100000 in
set_option maxHeartbeats 4000000 in
lemma oEscapes_empty_xFirst : oEscapes tableStrat 9 emptyBoard true = true := by rfl

set_option maxRecDepth 100000 in
set_option maxHeartbeats 4000000 in
lemma oEscapes_empty_oFirst : oEscapes tableStrat 9 emptyBoard false = true := by rfl

lemma xcfw_empty (t : Bool) : xCanForceWin 9 emptyBoard t = false := by
  cases t with
  | true => exact oEscapes_sound tableStrat 9 emptyBoard true oEscapes_empty_xFirst
  | false => exact oEscapes_sound tableStrat 9 emptyBoard false oEscapes_empty_oFirst

/-- **C3**: playing from the empty board with O's moves chosen by the hard
strategy (`minimax(board, 0, true, "O")`), whether O moves first
(`xTurn = false`) or second (`xTurn = true`), no opponent move sequence
ever reaches a position won by X: every game ends in a computer (O) win, a
draw, or is abandoned by the opponent before termination. -/
theorem C3_hard_strategy_never_loses (xs : List Nat) (xTurn : Bool) :
    checkWinner (simulate 9 emptyBoard xs xTurn) ≠ some Mark.X ∧
    ((checkWinner (simulate 9 emptyBoard xs xTurn) = none ∧
        isBoardFull (simulate 9 emptyBoard xs xTurn) = false) ∨
      checkWinner (simulate 9 emptyBoard xs xTurn) = some Mark.O ∨
      isDraw (simulate 9 emptyBoard xs xTurn) = true) := by
  have hmain := simulate_safe 9 emptyBoard xs xTurn (by decide) (by decide)
    (xcfw_empty xTurn)
  refine ⟨hmain, ?_⟩
  cases hw : checkWinner (simulate 9 emptyBoard xs xTurn) with
  | some w =>
    cases w with
    | X => exact absurd hw hmain
    | O => exact Or.inr (Or.inl rfl)
  | none =>
    cases hfull : isBoardFull (simulate 9 emptyBoard xs xTurn) with
    | false => exact Or.inl ⟨rfl, rfl⟩
    | true =>
      refine Or.inr (Or.inr ?_)
      unfold isDraw
      rw [hw, hfull]
      rfl

/-- Witness for `C3_hard_strategy_never_loses` at the trivial opponent
list. -/
theorem C3_hard_strategy_never_loses_witness :
    simulate 9 emptyBoard [] true = emptyBoard ∧
    checkWinner (simulate 9 emptyBoard [] true) ≠ some Mark.X :=
  ⟨rfl, (C3_hard_strategy_never_loses [] true).1⟩

/-- A win line with exactly two of its cells holding `m` and exactly one
empty cell (the claim's "completable line"). -/
def completableLine (board : Board) (m : Mark) (l : Nat × Nat × Nat) : Prop :=
  [cellAt board l.1, cellAt board l.2.1, cellAt board l.2.2].count (some m) = 2 ∧
  [cellAt board l.1, cellAt board l.2.1, cellAt board l.2.2].count (none : Cell) = 1

instance (board : Board) (m : Mark) (l : Nat × Nat × Nat) :
    Decidable (completableLine board m l) := by
  unfold completableLine; infer_instance

/-- Cell `i` completes (or blocks) a completable line of `m`: it is the
empty cell of some win line whose other cells are all `m`. -/
def criticalCell (board : Board) (m : Mark) (i : Nat) : Prop :=
  ∃ l ∈ winningCombinations,
    completableLine board m l ∧ i ∈ lineCells l ∧ cellAt board i = none

lemma criticalInLine_eq_some {board : Board} {m : Mark} {l : Nat × Nat × Nat} {i : Nat}
    (h : criticalInLine board m 2 l = some i) :
    completableLine board m l ∧ i ∈ lineCells l ∧ cellAt board i = none := by
  simp only [criticalInLine] at h
  split at h
  · rename_i hcond
    obtain ⟨j, hj, hf⟩ := List.exists_of_findSome?_eq_some h
    revert hf
    split
    · rename_i hc
      intro hf
      injection hf with e
      subst e
      refine ⟨⟨?_, ?_⟩, hj, by simpa using hc⟩
      · rw [List.count, List.countP_eq_length_filter]
        exact hcond.1
      · rw [List.count, List.countP_eq_length_filter]
        exact hcond.2
    · intro hf; cases hf
  · cases h

lemma criticalInLine_isSome {board : Board} {m : Mark} {l : Nat × Nat × Nat}
    (h : completableLine board m l) : (criticalInLine board m 2 l).isSome = true := by
  obtain ⟨hcount, hempty⟩ := h
  simp only [criticalInLine]
  rw [if_pos]
  · rw [List.findSome?_isSome_iff]
    have hmem : (none : Cell) ∈ [cellAt board l.1, cellAt board l.2.1, cellAt board l.2.2] :=
      List.count_pos_iff.mp (by omega)
    have : ∃ i ∈ lineCells l, cellAt board i = none := by
      simp only [lineCells, List.mem_cons, List.not_mem_nil, or_false] at hmem ⊢
      rcases hmem with h | h | h
      · exact ⟨l.1, Or.inl rfl, h.symm⟩
      · exact ⟨l.2.1, Or.inr (Or.inl rfl), h.symm⟩
      · exact ⟨l.2.2, Or.inr (Or.inr rfl), h.symm⟩
    obtain ⟨i, hi, hnone⟩ := this
    exact ⟨i, hi, by rw [if_pos (by simpa using hnone)]; rfl⟩
  · constructor
    · rw [← List.countP_eq_length_filter, ← List.count]
      exact hcount
    · rw [← List.countP_eq_length_filter, ← List.count]
      exact hempty

lemma findCriticalMove_eq_some {board : Board} {m : Mark} {i : Nat}
    (h : findCriticalMove board m 2 = some i) : criticalCell board m i := by
  obtain ⟨l, hl, hcl⟩ := List.exists_of_findSome?_eq_some h
  obtain ⟨h1, h2, h3⟩ := criticalInLine_eq_some hcl
  exact ⟨l, hl, h1, h2, h3⟩

lemma findCriticalMove_isSome {board : Board} {m : Mark}
    (h : ∃ l ∈ winningCombinations, completableLine board m l) :
    (findCriticalMove board m 2).isSome = true := by
  obtain ⟨l, hl, hc⟩ := h
  unfold findCriticalMove
  rw [List.findSome?_isSome_iff]
  exact ⟨l, hl, criticalInLine_isSome hc⟩

/-- **C5**: whenever the computer's mark O has a completable line the
medium tier returns an index completing such a line, whatever the random
draw; and whenever O has none but the opponent's mark X has one, it returns
the empty index of such an X line (blocking), taking precedence over
center/corner/side play. -/
theorem C5_medium_critical_move_precedence (board : Board) (r : Nat) :
    ((∃ l ∈ winningCombinations, completableLine board Mark.O l) →
      ∃ i, mediumMove board r = some i ∧ criticalCell board Mark.O i) ∧
    ((¬ ∃ l ∈ winningCombinations, completableLine board Mark.O l) →
      (∃ l ∈ winningCombinations, completableLine board Mark.X l) →
      ∃ i, mediumMove board r = some i ∧ criticalCell board Mark.X i) := by
  constructor
  · intro h
    have hs := findCriticalMove_isSome h
    obtain ⟨i, hi⟩ := Option.isSome_iff_exists.mp hs
    refine ⟨i, ?_, findCriticalMove_eq_some hi⟩
    simp only [mediumMove, hi]
  · intro hno hx
    have hOnone : findCriticalMove board Mark.O 2 = none := by
      cases hO : findCriticalMove board Mark.O 2 with
      | none => rfl
      | some i =>
        obtain ⟨l, hl, hc, _, _⟩ := findCriticalMove_eq_some hO
        exact absurd ⟨l, hl, hc⟩ hno
    have hs := findCriticalMove_isSome hx
    obtain ⟨i, hi⟩ := Option.isSome_iff_exists.mp hs
    refine ⟨i, ?_, findCriticalMove_eq_some hi⟩
    simp only [mediumMove, hOnone, hi]

/-- Witness for `C5_medium_critical_move_precedence`: with O on cells 0 and
1 and cell 2 free, medium completes the line whatever the draw. -/
theorem C5_medium_critical_move_precedence_witness :
    ∃ i, mediumMove [some Mark.O, some Mark.O, none,
      some Mark.X, some Mark.X, none, none, none, none] 3 = some i ∧
      criticalCell [some Mark.O, some Mark.O, none,
        some Mark.X, some Mark.X, none, none, none, none] Mark.O i :=
  (C5_medium_critical_move_precedence _ 3).1 (by decide)

/-- **C8, amended**: the server's `newGame` always resets to the empty
board, active game and current mark X, preserving every statistics counter;
the local `creategameBoard` also resets to the empty board and an active
game and leaves `gameStatistics` unchanged, and restarts at mark X *except*
in offline PvP with `playerXStartsFirst` off, where it restarts at O. -/
theorem C8_reset_board_turn_preserves_stats (room : RoomState) (gameMode : GameMode)
    (onlineMode playerXStartsFirst : Bool) (s : LocalGameState) :
    (newGame room).board = emptyBoard ∧
    (newGame room).currentPlayer = Mark.X ∧
    (newGame room).isActive = true ∧
    (newGame room).stats = room.stats ∧
    (creategameBoard gameMode onlineMode playerXStartsFirst s).board = emptyBoard ∧
    (creategameBoard gameMode onlineMode playerXStartsFirst s).isActive = true ∧
    (creategameBoard gameMode onlineMode playerXStartsFirst s).stats = s.stats ∧
    (creategameBoard gameMode onlineMode playerXStartsFirst s).currentPlayer =
      (if gameMode = GameMode.pvp ∧ onlineMode = false ∧ playerXStartsFirst = false
       then Mark.O else Mark.X) := by
  refine ⟨rfl, rfl, rfl, rfl, rfl, rfl, rfl, ?_⟩
  cases gameMode <;> cases onlineMode <;> cases playerXStartsFirst <;> simp [creategameBoard]

end TicTacToe
